import Mathlib

/-!
Verification development for the mnemonic-to-Ethereum-account derivation
pipeline (`batch_generate_ethereum_account_from_mnemonic.py`).

The Python source is shallowly embedded: bytes are `List Nat` (each entry a
value below 256), machine words are `Nat` reduced modulo `2 ^ 64` or
`2 ^ 32` where the source's arithmetic wraps, and fallible Python code
(code that can raise) is embedded with `Option`.  The unbounded
`while True` retry loop of `derive_bip32childkey` is embedded with an
explicit `fuel` parameter: `none` means the loop did not finish within
`fuel` iterations.  Library primitives the source calls (hashlib's
SHA-512, SHA-256 and PBKDF2, hmac, the secp256k1 scalar multiplication of
the `ecdsa` package, `eth_utils.keccak`, `eth_utils.to_checksum_address`
and `base58.b58encode_check`) are embedded as executable functions
following their published algorithms, and validated below against the
standard test vectors (FIPS 180-4, RFC 4231, the Keccak reference, the
SEC 2 curve constants, EIP-55).

Two implementation notes on kernel-executability, which several concrete
theorems below rely on:
* hash states sit in single `Nat`s (one 64-bit lane per 64-bit slice)
  rather than in lists, and the hot recursions are written with `Nat.rec`
  and `List.rec` directly, so that a proof by `decide` reduces in the
  kernel at a usable speed;
* `seqNat n k` is the identity on `k` (theorem `seqNat_eq`); forcing its
  first argument before recursing keeps the kernel's reduction of a long
  loop iterative.
-/

/-! ## Byte-string utilities -/

/-- Big-endian byte interpretation: Python's `int.from_bytes(bs, 'big')`. -/
def beToNat (bs : List Nat) : Nat := bs.foldl (fun acc b => acc * 256 + b) 0

/-- Big-endian serialization on `k` bytes: Python's `n.to_bytes(k, 'big')`
(without the overflow check, which call sites guard where it matters). -/
def natToBytes : Nat → Nat → List Nat
  | 0, _ => []
  | k + 1, n => natToBytes k (n / 256) ++ [n % 256]

/-- Little-endian serialization on `k` bytes (Keccak lanes are
little-endian). -/
def natToBytesLE : Nat → Nat → List Nat
  | 0, _ => []
  | k + 1, n => n % 256 :: natToBytesLE k (n / 256)

/-- Little-endian byte interpretation. -/
def leToNat (bs : List Nat) : Nat := bs.foldr (fun b acc => acc * 256 + b) 0

/-- Python's `struct.pack('>L', i)`: four big-endian bytes. -/
def be32 (i : Nat) : List Nat := natToBytes 4 i

/-- UTF-8 encoding of one Unicode code point. -/
def utf8Char (c : Nat) : List Nat :=
  if c < 128 then [c]
  else if c < 2048 then [192 + c / 64, 128 + c % 64]
  else if c < 65536 then [224 + c / 4096, 128 + c / 64 % 64, 128 + c % 64]
  else [240 + c / 262144, 128 + c / 4096 % 64, 128 + c / 64 % 64, 128 + c % 64]

/-- UTF-8 encoding of a string: Python's `bytes(s, 'utf8')`. -/
def utf8 (s : String) : List Nat := (s.toList.map (fun c => utf8Char c.toNat)).flatten

/-- Lowercase hexadecimal digit of a value below 16. -/
def hexDigit (n : Nat) : Char := if n < 10 then Char.ofNat (48 + n) else Char.ofNat (87 + n)

/-- Lowercase hex rendering of a byte string, two digits per byte:
Python's `binascii.hexlify` / `bytes.hex()`. -/
def hexChars (bs : List Nat) : List Char :=
  (bs.map (fun b => [hexDigit (b / 16), hexDigit (b % 16)])).flatten

/-- Value of one hexadecimal digit character, `none` on other characters. -/
def hexVal (c : Char) : Option Nat :=
  if 48 ≤ c.toNat ∧ c.toNat ≤ 57 then some (c.toNat - 48)
  else if 97 ≤ c.toNat ∧ c.toNat ≤ 102 then some (c.toNat - 87)
  else if 65 ≤ c.toNat ∧ c.toNat ≤ 70 then some (c.toNat - 55)
  else none

/-- Hex-string parsing into bytes: Python's `bytes.fromhex` on strings
without whitespace (the pipeline only produces plain hex-digit strings). -/
def bytesFromHex (s : String) : Option (List Nat) :=
  let rec go : List Char → Option (List Nat)
    | [] => some []
    | [_] => none
    | c1 :: c2 :: rest =>
      match hexVal c1, hexVal c2, go rest with
      | some h, some l, some bs => some ((16 * h + l) :: bs)
      | _, _, _ => none
  go s.toList

/-- Forcing combinator: evaluates `n` to a numeral, then returns `k`.
Semantically the identity in `k` (`seqNat_eq`); it only shapes kernel
reduction so that long loops run iteratively. -/
def seqNat (n : Nat) (k : α) : α := @Nat.rec (fun _ => α) k (fun _ _ => k) (Nat.mod n 2)

theorem seqNat_eq (n : Nat) (k : α) : seqNat n k = k := by
  unfold seqNat
  rcases h : Nat.mod n 2 with m | m <;> rfl

/-! ## SHA-512 (FIPS 180-4)

The eight-word working state lives in one `Nat`: word `a` occupies bits
0..63, `b` bits 64..127, and so on up to `h`.  The sixteen-word message
schedule window likewise packs `W_t` at bits `64*t` of one `Nat`.  All
words are big-endian when serialized. -/

/-- The 64-bit word modulus. -/
def M64 : Nat := 18446744073709551616

/-- All-ones 64-bit mask. -/
def mask64 : Nat := 18446744073709551615

/-- All-ones 192-bit mask (three consecutive state words). -/
def M192 : Nat := 6277101735386680763835789423207666416102355444464034512895

/-- Right-rotation of a 64-bit word by `n`. -/
def rotr64 (n x : Nat) : Nat :=
  Nat.lor (Nat.shiftRight x n) (Nat.land (Nat.shiftLeft x (64 - n)) mask64)

/-- SHA-512 `Σ₀`. -/
def sum0 (x : Nat) : Nat := Nat.xor (rotr64 28 x) (Nat.xor (rotr64 34 x) (rotr64 39 x))

/-- SHA-512 `Σ₁`. -/
def sum1 (x : Nat) : Nat := Nat.xor (rotr64 14 x) (Nat.xor (rotr64 18 x) (rotr64 41 x))

/-- SHA-512 `σ₀`. -/
def sig0 (x : Nat) : Nat := Nat.xor (rotr64 1 x) (Nat.xor (rotr64 8 x) (Nat.shiftRight x 7))

/-- SHA-512 `σ₁`. -/
def sig1 (x : Nat) : Nat := Nat.xor (rotr64 19 x) (Nat.xor (rotr64 61 x) (Nat.shiftRight x 6))

/-- SHA-512 round constants: high 64 bits of the fractional parts of the
cube roots of the first eighty primes (FIPS 180-4 4.2.3), in decimal. -/
def K512 : List Nat :=
  [4794697086780616226, 8158064640168781261, 13096744586834688815, 16840607885511220156,
   4131703408338449720, 6480981068601479193, 10538285296894168987, 12329834152419229976,
   15566598209576043074, 1334009975649890238, 2608012711638119052, 6128411473006802146,
   8268148722764581231, 9286055187155687089, 11230858885718282805, 13951009754708518548,
   16472876342353939154, 17275323862435702243, 1135362057144423861, 2597628984639134821,
   3308224258029322869, 5365058923640841347, 6679025012923562964, 8573033837759648693,
   10970295158949994411, 12119686244451234320, 12683024718118986047, 13788192230050041572,
   14330467153632333762, 15395433587784984357, 489312712824947311, 1452737877330783856,
   2861767655752347644, 3322285676063803686, 5560940570517711597, 5996557281743188959,
   7280758554555802590, 8532644243296465576, 9350256976987008742, 10552545826968843579,
   11727347734174303076, 12113106623233404929, 14000437183269869457, 14369950271660146224,
   15101387698204529176, 15463397548674623760, 17586052441742319658, 1182934255886127544,
   1847814050463011016, 2177327727835720531, 2830643537854262169, 3796741975233480872,
   4115178125766777443, 5681478168544905931, 6601373596472566643, 7507060721942968483,
   8399075790359081724, 8693463985226723168, 9568029438360202098, 10144078919501101548,
   10430055236837252648, 11840083180663258601, 13761210420658862357, 14299343276471374635,
   14566680578165727644, 15097957966210449927, 16922976911328602910, 17689382322260857208,
   500013540394364858, 748580250866718886, 1242879168328830382, 1977374033974150939,
   2944078676154940804, 3659926193048069267, 4368137639120453308, 4836135668995329356,
   5532061633213252278, 6448918945643986474, 6902733635092675308, 7801388544844847127]

/-- SHA-512 initial state, packed (word `a` of FIPS 180-4 5.3.5 in bits
0..63, ..., word `h` in bits 448..511). -/
def sha512IVp : Nat :=
  4812048101252663290612834066995531158742713419846591145376350182667999366794400516985448940192745739731038893726247251609359409289363687649257956495378696

/-- One message-schedule step on the packed sixteen-word window: shift the
window down one word and append
`σ₁(W_{t+14}) + W_{t+9} + σ₀(W_{t+1}) + W_t` (FIPS 180-4 6.4.2). -/
def schedW (w : Nat) : Nat :=
  Nat.lor (Nat.shiftRight w 64)
    (Nat.shiftLeft
      (Nat.mod
        (Nat.add (Nat.add (sig1 (Nat.land (Nat.shiftRight w 896) mask64))
                          (Nat.land (Nat.shiftRight w 576) mask64))
                 (Nat.add (sig0 (Nat.land (Nat.shiftRight w 64) mask64))
                          (Nat.land w mask64)))
        M64)
      960)

/-- One SHA-512 round on the packed state: `t1 = h + Σ₁(e) + Ch(e,f,g) +
K_t + W_t`, `t2 = Σ₀(a) + Maj(a,b,c)`, then
`(a,…,h) := (t1+t2, a, b, c, d+t1, e, f, g)`.  `W_t` is the low word of
the schedule window `w`. -/
def roundW (st k w : Nat) : Nat :=
  (fun a b c d e f g h =>
    (fun t1 t2 =>
      Nat.lor (Nat.lor
        (Nat.lor (Nat.mod (Nat.add t1 t2) M64)
                 (Nat.shiftLeft (Nat.land st M192) 64))
        (Nat.shiftLeft (Nat.mod (Nat.add d t1) M64) 256))
        (Nat.shiftLeft (Nat.land (Nat.shiftRight st 256) M192) 320))
      (Nat.mod (Nat.add (Nat.add (Nat.add h (sum1 e))
                 (Nat.xor (Nat.land e f) (Nat.land (Nat.xor e mask64) g)))
                 (Nat.add k (Nat.land w mask64))) M64)
      (Nat.mod (Nat.add (sum0 a)
                 (Nat.xor (Nat.land a b) (Nat.xor (Nat.land a c) (Nat.land b c)))) M64))
    (Nat.land st mask64)
    (Nat.land (Nat.shiftRight st 64) mask64)
    (Nat.land (Nat.shiftRight st 128) mask64)
    (Nat.land (Nat.shiftRight st 192) mask64)
    (Nat.land (Nat.shiftRight st 256) mask64)
    (Nat.land (Nat.shiftRight st 320) mask64)
    (Nat.land (Nat.shiftRight st 384) mask64)
    (Nat.shiftRight st 448)

/-- The eighty rounds, one per constant of `K512`, evolving schedule
window and state together. -/
def sha512Rounds (ks : List Nat) : Nat → Nat → Nat :=
  @List.rec Nat (fun _ => Nat → Nat → Nat)
    (fun _ st => st)
    (fun k _ ih w st => ih (schedW w) (roundW st k w))
    ks

/-- Lane-wise addition modulo `2 ^ 64` of two packed states
(the final feed-forward of a compression). -/
def addLanes (x y : Nat) : Nat :=
  (fun g => Nat.lor (Nat.lor (Nat.lor (g 0) (g 64)) (Nat.lor (g 128) (g 192)))
                    (Nat.lor (Nat.lor (g 256) (g 320)) (Nat.lor (g 384) (g 448))))
    (fun i => Nat.shiftLeft (Nat.mod (Nat.add (Nat.land (Nat.shiftRight x i) mask64)
                                              (Nat.land (Nat.shiftRight y i) mask64)) M64) i)

/-- SHA-512 compression of one packed 1024-bit block into the state. -/
def sha512CompressP (st blk : Nat) : Nat := addLanes st (sha512Rounds K512 blk st)

/-- Big-endian 8-byte groups to 64-bit words. -/
def bytesToWords64 : List Nat → List Nat
  | b1 :: b2 :: b3 :: b4 :: b5 :: b6 :: b7 :: b8 :: rest =>
    (((((((b1 * 256 + b2) * 256 + b3) * 256 + b4) * 256 + b5) * 256 + b6) * 256 + b7)
        * 256 + b8) :: bytesToWords64 rest
  | _ => []

/-- Pack a word list (first word lowest) into one `Nat`. -/
def packWords (ws : List Nat) : Nat :=
  ws.foldr (fun wd acc => Nat.lor wd (Nat.shiftLeft acc 64)) 0

/-- A 128-byte block as a packed sixteen-word `Nat`. -/
def packBlockBE (block : List Nat) : Nat := packWords (bytesToWords64 block)

/-- SHA-512 padding: `0x80`, zeros, then the 16-byte big-endian bit
length, to a multiple of 128 bytes (FIPS 180-4 5.1.2). -/
def sha512Pad (msg : List Nat) : List Nat :=
  msg ++ [128] ++ List.replicate ((128 - (msg.length + 17) % 128) % 128) 0
      ++ natToBytes 16 (8 * msg.length)

/-- Chunking into 128-byte blocks (fuel is any bound on the block count). -/
def chunk128 : Nat → List Nat → List (List Nat)
  | 0, _ => []
  | _, [] => []
  | f + 1, l => l.take 128 :: chunk128 f (l.drop 128)

/-- The padded message as packed blocks. -/
def padBlocks (msg : List Nat) : List (List Nat) := chunk128 (msg.length + 17) (sha512Pad msg)

/-- Fold the compression over the blocks, forcing the state after each. -/
def sha512Blocks (blocks : List (List Nat)) : Nat → Nat :=
  @List.rec (List Nat) (fun _ => Nat → Nat)
    (fun st => st)
    (fun b _ ih st => (fun st2 => seqNat st2 (ih st2)) (sha512CompressP st (packBlockBE b)))
    blocks

/-- Packed state (word `a` lowest) to the 512-bit big-endian digest value
(word `a` highest). -/
def beState (st : Nat) : Nat :=
  Nat.lor (Nat.lor
    (Nat.lor (Nat.shiftLeft (Nat.land st mask64) 448)
             (Nat.shiftLeft (Nat.land (Nat.shiftRight st 64) mask64) 384))
    (Nat.lor (Nat.shiftLeft (Nat.land (Nat.shiftRight st 128) mask64) 320)
             (Nat.shiftLeft (Nat.land (Nat.shiftRight st 192) mask64) 256)))
   (Nat.lor
    (Nat.lor (Nat.shiftLeft (Nat.land (Nat.shiftRight st 256) mask64) 192)
             (Nat.shiftLeft (Nat.land (Nat.shiftRight st 320) mask64) 128))
    (Nat.lor (Nat.shiftLeft (Nat.land (Nat.shiftRight st 384) mask64) 64)
             (Nat.shiftRight st 448)))

/-- SHA-512 of a byte string: Python's `hashlib.sha512(msg).digest()`. -/
def sha512 (msg : List Nat) : List Nat :=
  natToBytes 64 (beState (sha512Blocks (padBlocks msg) sha512IVp))

/-! ## HMAC-SHA512 (FIPS 198-1) and PBKDF2 (RFC 2898) -/

/-- HMAC key preprocessing: hash keys longer than the block, then
zero-pad to 128 bytes. -/
def hmacPadKey (key : List Nat) : List Nat :=
  (fun k0 => k0 ++ List.replicate (128 - k0.length) 0)
    (if 128 < key.length then sha512 key else key)

/-- HMAC-SHA512: Python's `hmac.new(key, msg, hashlib.sha512).digest()`. -/
def hmac_sha512 (key msg : List Nat) : List Nat :=
  (fun kp =>
    sha512 ((kp.map (fun b => Nat.xor b 92)) ++ sha512 ((kp.map (fun b => Nat.xor b 54)) ++ msg)))
    (hmacPadKey key)

/-- The state after absorbing the ipad-masked key block (HMAC's inner
hash, first block). -/
def hmacInnerState (password : List Nat) : Nat :=
  sha512CompressP sha512IVp (packBlockBE ((hmacPadKey password).map (fun b => Nat.xor b 54)))

/-- The state after absorbing the opad-masked key block. -/
def hmacOuterState (password : List Nat) : Nat :=
  sha512CompressP sha512IVp (packBlockBE ((hmacPadKey password).map (fun b => Nat.xor b 92)))

/-- A 64-byte big-endian value `d` as the final padded block of a
192-byte message: words `W0..W7` from `d`, then the `0x80` padding byte
and the 1536-bit length field. -/
def beBlock2 (d : Nat) : Nat :=
  Nat.lor (Nat.lor (Nat.lor
    (Nat.lor (Nat.shiftRight d 448)
             (Nat.shiftLeft (Nat.land (Nat.shiftRight d 384) mask64) 64))
    (Nat.lor (Nat.shiftLeft (Nat.land (Nat.shiftRight d 320) mask64) 128)
             (Nat.shiftLeft (Nat.land (Nat.shiftRight d 256) mask64) 192)))
   (Nat.lor
    (Nat.lor (Nat.shiftLeft (Nat.land (Nat.shiftRight d 192) mask64) 256)
             (Nat.shiftLeft (Nat.land (Nat.shiftRight d 128) mask64) 320))
    (Nat.lor (Nat.shiftLeft (Nat.land (Nat.shiftRight d 64) mask64) 384)
             (Nat.shiftLeft (Nat.land d mask64) 448))))
   (Nat.lor (Nat.shiftLeft 9223372036854775808 512) (Nat.shiftLeft 1536 960))

/-- HMAC-SHA512 of one 64-byte value `u` (big-endian), given the
precomputed inner and outer key-block states: exactly the two remaining
compressions of the standard HMAC. -/
def hmacU (hi ho u : Nat) : Nat :=
  beState (sha512CompressP ho (beBlock2 (beState (sha512CompressP hi (beBlock2 u)))))

/-- The PBKDF2 iteration: `n` further rounds from last block `u` and
accumulator `t`, both 64-byte big-endian values
(`u_{i+1} = HMAC(password, u_i)`, `t := t XOR u_{i+1}`). -/
def pbkdf2Iter (hi ho : Nat) (n : Nat) (u t : Nat) : Nat × Nat :=
  @Nat.rec (fun _ => Nat → Nat → Nat × Nat)
    (fun u t => (u, t))
    (fun _ ih u t =>
      (fun u2 => seqNat u2 ((fun t2 => seqNat t2 (ih u2 t2)) (Nat.xor t u2)))
        (hmacU hi ho u))
    n u t

/-- PBKDF2-HMAC-SHA512 with the digest-size output length (64 bytes, a
single block): Python's `hashlib.pbkdf2_hmac('sha512', password, salt,
count)` with its default `dklen`.  `count` is at least 1 at every call
site.  `U_1 = HMAC(password, salt ‖ be32(1))`; the output is
`U_1 XOR … XOR U_count`. -/
def pbkdf2_hmac_sha512 (password salt : List Nat) (count : Nat) : List Nat :=
  (fun u1 =>
    natToBytes 64 ((pbkdf2Iter (hmacInnerState password) (hmacOuterState password)
                      (count - 1) u1 u1).2))
    (beToNat (hmac_sha512 password (salt ++ be32 1)))

set_option maxRecDepth 4000000

/-- FIPS 180-4 test vector: SHA-512 of `"abc"`. -/
theorem sha512_vector_abc :
    beToNat (sha512 (utf8 "abc")) =
      11610554759577678887058616627522426787358414133166247019097754655123425531747192578669846860198531688061507751898313498051436198428987376028989280584770719 := by
  decide!

/-- FIPS 180-4 test vector: SHA-512 of the empty string. -/
theorem sha512_vector_empty :
    beToNat (sha512 []) =
      10868450558671247443152026947160338505683745266658651051718065983487878962987857602829315249215796444208488632888003673539585986066311769564391053988452926 := by
  decide!

/-- RFC 4231 test case 1: HMAC-SHA512 with key twenty `0x0b` bytes and
message `"Hi There"`. -/
theorem hmac_sha512_vector_rfc4231 :
    beToNat (hmac_sha512 (List.replicate 20 11) (utf8 "Hi There")) =
      7105403280102189556655620892811527061705032102806457246730940378691842288015070024500830960068032312403947198559523744936842191604797060850177435155720276 := by
  decide!

/-- PBKDF2-HMAC-SHA512, password `"a"`, salt `"mnemonic"`, two rounds
(agrees with Python's `hashlib.pbkdf2_hmac`). -/
theorem pbkdf2_vector_two_rounds :
    beToNat (pbkdf2_hmac_sha512 (utf8 "a") (utf8 "mnemonic") 2) =
      6462211321690812022728152978908963483453908878722774672547633400170029174865198150301255915266693505372297529761048562956611827734829601864962651052648565 := by
  decide!

/-! ## Keccak-256 (the original Keccak padding, as `eth_utils.keccak`)

The 25-lane state is one `Nat` with lane `(x, y)` (index `x + 5y`) at
bits `64 * (x + 5y)`; lanes are little-endian when serialized. -/

/-- Left-rotation of a 64-bit word by `n < 64`. -/
def rol64 (n x : Nat) : Nat :=
  Nat.lor (Nat.land (Nat.shiftLeft x n) mask64) (Nat.shiftRight x (64 - n))

/-- A 1 in the lowest bit of each of the five lanes of a column. -/
def keccakRep5 : Nat :=
  20815864389328798163850480654728171077230524494533409610638224700807216119346720596024478883464658114998854627907642368965155007684957806043137408218881509432305471967469207117648832314389049115767584763633806249732742419165253485721200088004732763816076746947597445338784090465624812580354338229053547305749812462399080710418383320116099357515530159338092372165022113882598552585109505

/-- The 24 Keccak round constants, in decimal. -/
def keccakRC : List Nat :=
  [1, 32898, 9223372036854808714,
   9223372039002292224, 32907, 2147483649,
   9223372039002292353, 9223372036854808585, 138,
   136, 2147516425, 2147483658,
   2147516555, 9223372036854775947, 9223372036854808713,
   9223372036854808579, 9223372036854808578, 9223372036854775936,
   32778, 9223372039002259466, 9223372039002292353,
   9223372036854808704, 2147483649, 9223372039002292232]
/-- Keccak θ on the packed state: column parities `C`, offsets `D`, and
one XOR per column replicated over its five lanes by multiplication with
`keccakRep5` (lanes are 320 bits apart, so no carries arise). -/
def thetaK (s : Nat) : Nat :=
  (fun lane =>
    (fun c0 c1 c2 c3 c4 =>
      (fun d0 d1 d2 d3 d4 =>
        Nat.xor (Nat.xor (Nat.xor s (Nat.mul d0 keccakRep5))
                         (Nat.xor (Nat.mul d1 (Nat.shiftLeft keccakRep5 64))
                                  (Nat.mul d2 (Nat.shiftLeft keccakRep5 128))))
                (Nat.xor (Nat.mul d3 (Nat.shiftLeft keccakRep5 192))
                         (Nat.mul d4 (Nat.shiftLeft keccakRep5 256))))
        (Nat.xor c4 (rol64 1 c1)) (Nat.xor c0 (rol64 1 c2)) (Nat.xor c1 (rol64 1 c3))
        (Nat.xor c2 (rol64 1 c4)) (Nat.xor c3 (rol64 1 c0)))
      (Nat.xor (lane 0) (Nat.xor (lane 5) (Nat.xor (lane 10) (Nat.xor (lane 15) (lane 20)))))
      (Nat.xor (lane 1) (Nat.xor (lane 6) (Nat.xor (lane 11) (Nat.xor (lane 16) (lane 21)))))
      (Nat.xor (lane 2) (Nat.xor (lane 7) (Nat.xor (lane 12) (Nat.xor (lane 17) (lane 22)))))
      (Nat.xor (lane 3) (Nat.xor (lane 8) (Nat.xor (lane 13) (Nat.xor (lane 18) (lane 23)))))
      (Nat.xor (lane 4) (Nat.xor (lane 9) (Nat.xor (lane 14) (Nat.xor (lane 19) (lane 24))))))
    (fun i => Nat.land (Nat.shiftRight s (Nat.mul 64 i)) mask64)

/-- Keccak ρ and π on the packed state: each lane rotated by its offset
and moved to its destination (`B[y, 2x+3y] = rot(A[x, y], r[x, y])`). -/
def rhoPiK (s : Nat) : Nat :=
  (fun lane =>
    (Nat.lor (Nat.lor (Nat.lor (Nat.lor (lane 0) (Nat.lor (Nat.shiftLeft (rol64 44 (lane 6)) 64)
    (Nat.shiftLeft (rol64 43 (lane 12)) 128))) (Nat.lor (Nat.shiftLeft (rol64 21 (lane 18)) 192)
    (Nat.lor (Nat.shiftLeft (rol64 14 (lane 24)) 256) (Nat.shiftLeft (rol64 28 (lane 3)) 320))))
    (Nat.lor (Nat.lor (Nat.shiftLeft (rol64 20 (lane 9)) 384) (Nat.lor (Nat.shiftLeft (rol64 3 (lane
    10)) 448) (Nat.shiftLeft (rol64 45 (lane 16)) 512))) (Nat.lor (Nat.shiftLeft (rol64 61 (lane
    22)) 576) (Nat.lor (Nat.shiftLeft (rol64 1 (lane 1)) 640) (Nat.shiftLeft (rol64 6 (lane 7))
    704))))) (Nat.lor (Nat.lor (Nat.lor (Nat.shiftLeft (rol64 25 (lane 13)) 768) (Nat.lor
    (Nat.shiftLeft (rol64 8 (lane 19)) 832) (Nat.shiftLeft (rol64 18 (lane 20)) 896))) (Nat.lor
    (Nat.shiftLeft (rol64 27 (lane 4)) 960) (Nat.lor (Nat.shiftLeft (rol64 36 (lane 5)) 1024)
    (Nat.shiftLeft (rol64 10 (lane 11)) 1088)))) (Nat.lor (Nat.lor (Nat.shiftLeft (rol64 15 (lane
    17)) 1152) (Nat.lor (Nat.shiftLeft (rol64 56 (lane 23)) 1216) (Nat.shiftLeft (rol64 62 (lane 2))
    1280))) (Nat.lor (Nat.lor (Nat.shiftLeft (rol64 55 (lane 8)) 1344) (Nat.shiftLeft (rol64 39
    (lane 14)) 1408)) (Nat.lor (Nat.shiftLeft (rol64 41 (lane 15)) 1472) (Nat.shiftLeft (rol64 2
    (lane 21)) 1536))))))
    )
    (fun i => Nat.land (Nat.shiftRight s (Nat.mul 64 i)) mask64)

/-- Keccak χ on the packed state:
`A[x, y] = B[x, y] XOR (NOT B[x+1, y] AND B[x+2, y])`. -/
def chiK (s : Nat) : Nat :=
  (fun lane =>
    (Nat.lor (Nat.lor (Nat.lor (Nat.lor (Nat.xor (lane 0) (Nat.land (Nat.xor (lane 1) mask64) (lane
    2))) (Nat.lor (Nat.shiftLeft (Nat.xor (lane 1) (Nat.land (Nat.xor (lane 2) mask64) (lane 3)))
    64) (Nat.shiftLeft (Nat.xor (lane 2) (Nat.land (Nat.xor (lane 3) mask64) (lane 4))) 128)))
    (Nat.lor (Nat.shiftLeft (Nat.xor (lane 3) (Nat.land (Nat.xor (lane 4) mask64) (lane 0))) 192)
    (Nat.lor (Nat.shiftLeft (Nat.xor (lane 4) (Nat.land (Nat.xor (lane 0) mask64) (lane 1))) 256)
    (Nat.shiftLeft (Nat.xor (lane 5) (Nat.land (Nat.xor (lane 6) mask64) (lane 7))) 320)))) (Nat.lor
    (Nat.lor (Nat.shiftLeft (Nat.xor (lane 6) (Nat.land (Nat.xor (lane 7) mask64) (lane 8))) 384)
    (Nat.lor (Nat.shiftLeft (Nat.xor (lane 7) (Nat.land (Nat.xor (lane 8) mask64) (lane 9))) 448)
    (Nat.shiftLeft (Nat.xor (lane 8) (Nat.land (Nat.xor (lane 9) mask64) (lane 5))) 512))) (Nat.lor
    (Nat.shiftLeft (Nat.xor (lane 9) (Nat.land (Nat.xor (lane 5) mask64) (lane 6))) 576) (Nat.lor
    (Nat.shiftLeft (Nat.xor (lane 10) (Nat.land (Nat.xor (lane 11) mask64) (lane 12))) 640)
    (Nat.shiftLeft (Nat.xor (lane 11) (Nat.land (Nat.xor (lane 12) mask64) (lane 13))) 704)))))
    (Nat.lor (Nat.lor (Nat.lor (Nat.shiftLeft (Nat.xor (lane 12) (Nat.land (Nat.xor (lane 13)
    mask64) (lane 14))) 768) (Nat.lor (Nat.shiftLeft (Nat.xor (lane 13) (Nat.land (Nat.xor (lane 14)
    mask64) (lane 10))) 832) (Nat.shiftLeft (Nat.xor (lane 14) (Nat.land (Nat.xor (lane 10) mask64)
    (lane 11))) 896))) (Nat.lor (Nat.shiftLeft (Nat.xor (lane 15) (Nat.land (Nat.xor (lane 16)
    mask64) (lane 17))) 960) (Nat.lor (Nat.shiftLeft (Nat.xor (lane 16) (Nat.land (Nat.xor (lane 17)
    mask64) (lane 18))) 1024) (Nat.shiftLeft (Nat.xor (lane 17) (Nat.land (Nat.xor (lane 18) mask64)
    (lane 19))) 1088)))) (Nat.lor (Nat.lor (Nat.shiftLeft (Nat.xor (lane 18) (Nat.land (Nat.xor
    (lane 19) mask64) (lane 15))) 1152) (Nat.lor (Nat.shiftLeft (Nat.xor (lane 19) (Nat.land
    (Nat.xor (lane 15) mask64) (lane 16))) 1216) (Nat.shiftLeft (Nat.xor (lane 20) (Nat.land
    (Nat.xor (lane 21) mask64) (lane 22))) 1280))) (Nat.lor (Nat.lor (Nat.shiftLeft (Nat.xor (lane
    21) (Nat.land (Nat.xor (lane 22) mask64) (lane 23))) 1344) (Nat.shiftLeft (Nat.xor (lane 22)
    (Nat.land (Nat.xor (lane 23) mask64) (lane 24))) 1408)) (Nat.lor (Nat.shiftLeft (Nat.xor (lane
    23) (Nat.land (Nat.xor (lane 24) mask64) (lane 20))) 1472) (Nat.shiftLeft (Nat.xor (lane 24)
    (Nat.land (Nat.xor (lane 20) mask64) (lane 21))) 1536))))))
    )
    (fun i => Nat.land (Nat.shiftRight s (Nat.mul 64 i)) mask64)

/-- One Keccak round: θ, ρ and π, χ, then ι (XOR of the round constant
into lane 0). -/
def keccakRound (s rc : Nat) : Nat := Nat.xor (chiK (rhoPiK (thetaK s))) rc

/-- The Keccak-f[1600] permutation: 24 rounds. -/
def keccakP (s : Nat) : Nat :=
  @List.rec Nat (fun _ => Nat → Nat)
    (fun s => s)
    (fun rc _ ih s => (fun s2 => seqNat s2 (ih s2)) (keccakRound s rc))
    keccakRC s

/-- Keccak multi-rate padding for rate 136 (Keccak-256): `0x01`, zeros,
final bit `0x80` (`0x81` when a single byte completes the block).  This
is the original Keccak domain byte, not SHA-3's `0x06`. -/
def keccakPad (msg : List Nat) : List Nat :=
  (fun q => if q = 1 then msg ++ [129]
            else msg ++ [1] ++ List.replicate (q - 2) 0 ++ [128])
    (136 - msg.length % 136)

/-- Chunking into 136-byte blocks (fuel is any bound on the block count). -/
def chunk136 : Nat → List Nat → List (List Nat)
  | 0, _ => []
  | _, [] => []
  | f + 1, l => l.take 136 :: chunk136 f (l.drop 136)

/-- Absorb the padded blocks: XOR each 136-byte block (little-endian)
into the low 17 lanes, then permute. -/
def keccakAbsorb (blocks : List (List Nat)) : Nat → Nat :=
  @List.rec (List Nat) (fun _ => Nat → Nat)
    (fun s => s)
    (fun b _ ih s => (fun s2 => seqNat s2 (ih s2)) (keccakP (Nat.xor s (leToNat b))))
    blocks

/-- Keccak-256 of a byte string: `eth_utils.keccak`.  The digest is the
first 32 bytes of the final state (lanes 0..3, little-endian). -/
def keccak256 (msg : List Nat) : List Nat :=
  natToBytesLE 32
    (Nat.land (keccakAbsorb (chunk136 (msg.length + 136) (keccakPad msg)) 0)
      115792089237316195423570985008687907853269984665640564039457584007913129639935)

/-! ## SHA-256 (FIPS 180-4) and base58check, for the extended-key
serializer (`b58encode_check`).  These are never on a hot evaluation
path, so they use plain list recursion. -/

/-- The 32-bit word modulus. -/
def M32 : Nat := 4294967296

/-- Right-rotation of a 32-bit word. -/
def rotr32 (n x : Nat) : Nat := ((x >>> n) ||| (x <<< (32 - n))) % M32

/-- SHA-256 round constants (cube roots of the first 64 primes), in
decimal. -/
def K256 : List Nat :=
  [1116352408, 1899447441, 3049323471, 3921009573, 961987163, 1508970993, 2453635748, 2870763221,
   3624381080, 310598401, 607225278, 1426881987, 1925078388, 2162078206, 2614888103, 3248222580,
   3835390401, 4022224774, 264347078, 604807628, 770255983, 1249150122, 1555081692, 1996064986,
   2554220882, 2821834349, 2952996808, 3210313671, 3336571891, 3584528711, 113926993, 338241895,
   666307205, 773529912, 1294757372, 1396182291, 1695183700, 1986661051, 2177026350, 2456956037,
   2730485921, 2820302411, 3259730800, 3345764771, 3516065817, 3600352804, 4094571909, 275423344,
   430227734, 506948616, 659060556, 883997877, 958139571, 1322822218, 1537002063, 1747873779,
   1955562222, 2024104815, 2227730452, 2361852424, 2428436474, 2756734187, 3204031479, 3329325298]

/-- SHA-256 initial state (square roots of the first eight primes). -/
def sha256IV : List Nat :=
  [1779033703, 3144134277, 1013904242, 2773480762, 1359893119, 2600822924, 528734635, 1541459225]

/-- Big-endian 4-byte groups to 32-bit words. -/
def bytesToWords32 : List Nat → List Nat
  | b1 :: b2 :: b3 :: b4 :: rest =>
    (((b1 * 256 + b2) * 256 + b3) * 256 + b4) :: bytesToWords32 rest
  | _ => []

/-- Next SHA-256 schedule word from the sliding 16-word window. -/
def sched256Next (w : List Nat) : Nat :=
  ((rotr32 17 (w.getD 14 0) ^^^ rotr32 19 (w.getD 14 0) ^^^ (w.getD 14 0 >>> 10))
    + w.getD 9 0
    + (rotr32 7 (w.getD 1 0) ^^^ rotr32 18 (w.getD 1 0) ^^^ (w.getD 1 0 >>> 3))
    + w.getD 0 0) % M32

/-- The SHA-256 message schedule, `n` words. -/
def sched256 : Nat → List Nat → List Nat
  | 0, _ => []
  | n + 1, w =>
    match w with
    | [] => []
    | w0 :: rest => w0 :: sched256 n (rest ++ [sched256Next w])

/-- One SHA-256 round on the eight-word state list. -/
def sha256Round (st : List Nat) (kw : Nat × Nat) : List Nat :=
  match st with
  | [a, b, c, d, e, f, g, h] =>
    (fun t1 t2 => [(t1 + t2) % M32, a, b, c, (d + t1) % M32, e, f, g])
      ((h + (rotr32 6 e ^^^ rotr32 11 e ^^^ rotr32 25 e)
          + ((e &&& f) ^^^ ((e ^^^ 4294967295) &&& g)) + kw.1 + kw.2) % M32)
      (((rotr32 2 a ^^^ rotr32 13 a ^^^ rotr32 22 a)
          + ((a &&& b) ^^^ (a &&& c) ^^^ (b &&& c))) % M32)
  | _ => st

/-- SHA-256 compression of one 64-byte block. -/
def sha256Compress (st : List Nat) (block : List Nat) : List Nat :=
  List.zipWith (fun x y => (x + y) % M32) st
    ((K256.zip (sched256 64 (bytesToWords32 block))).foldl sha256Round st)

/-- SHA-256 padding: `0x80`, zeros, 8-byte big-endian bit length. -/
def sha256Pad (msg : List Nat) : List Nat :=
  msg ++ [128] ++ List.replicate ((64 - (msg.length + 9) % 64) % 64) 0
      ++ natToBytes 8 (8 * msg.length)

/-- Chunking into 64-byte blocks. -/
def chunk64 : Nat → List Nat → List (List Nat)
  | 0, _ => []
  | _, [] => []
  | f + 1, l => l.take 64 :: chunk64 f (l.drop 64)

/-- SHA-256 of a byte string: Python's `hashlib.sha256(msg).digest()`. -/
def sha256 (msg : List Nat) : List Nat :=
  ((chunk64 (msg.length + 9) (sha256Pad msg)).foldl sha256Compress sha256IV).flatMap
    (natToBytes 4)

/-- The base58 alphabet. -/
def b58Alphabet : List Char :=
  "123456789ABCDEFGHJKLMNPQRSTUVWXYZabcdefghijkmnopqrstuvwxyz".toList

/-- Base-58 digits of `n`, least significant first (fuel bounds the digit
count). -/
def b58Digits : Nat → Nat → List Nat
  | 0, _ => []
  | _ + 1, 0 => []
  | f + 1, n => n % 58 :: b58Digits f (n / 58)

/-- Base58 encoding: one `'1'` per leading zero byte, then the value's
base-58 digits, most significant first. -/
def b58encode (bs : List Nat) : String :=
  String.mk (List.replicate (bs.takeWhile (fun b => b = 0)).length '1'
    ++ ((b58Digits (2 * bs.length + 1) (beToNat bs)).reverse.map
          (fun d => b58Alphabet.getD d '1')))

/-- `base58.b58encode_check`: base58 of the payload followed by the first
four bytes of its double SHA-256. -/
def b58encode_check (bs : List Nat) : String :=
  b58encode (bs ++ (sha256 (sha256 bs)).take 4)

/-! ## secp256k1 (SEC 2) scalar multiplication, affine coordinates -/

/-- The secp256k1 field prime. -/
def secp_p : Nat :=
  115792089237316195423570985008687907853269984665640564039457584007908834671663

/-- The secp256k1 group order (`BIP32_CURVE.order` in the source). -/
def secp_n : Nat :=
  115792089237316195423570985008687907852837564279074904382605163141518161494337

/-- Base-point x-coordinate. -/
def secp_gx : Nat :=
  55066263022277343669578718895168534326250603453777594175500187360389116729240

/-- Base-point y-coordinate. -/
def secp_gy : Nat :=
  32670510020758816978083085130507043184471273380659243275938904335757337482424

/-- Binary modular exponentiation (fuel bounds the exponent's bit
length). -/
def powMod (fuel : Nat) : Nat → Nat → Nat → Nat → Nat :=
  @Nat.rec (fun _ => Nat → Nat → Nat → Nat → Nat)
    (fun _ _ acc _ => acc)
    (fun _ ih b e acc m =>
      match e with
      | 0 => acc
      | _ + 1 =>
        (fun b2 =>
          seqNat b2
            (@Nat.rec (fun _ => Nat)
              (ih b2 (Nat.div e 2) acc m)
              (fun _ _ => ih b2 (Nat.div e 2) (Nat.mod (Nat.mul acc b) m) m)
              (Nat.mod e 2)))
          (Nat.mod (Nat.mul b b) m))
    fuel

/-- Modular inverse in the secp256k1 field, by Fermat's little theorem. -/
def modInv (a : Nat) : Nat := powMod 257 a (secp_p - 2) 1 secp_p

/-- Affine point addition on secp256k1 (`none` is the point at
infinity), with the doubling and inverse cases handled. -/
def ecAdd : Option (Nat × Nat) → Option (Nat × Nat) → Option (Nat × Nat)
  | none, q => q
  | p, none => p
  | some (x1, y1), some (x2, y2) =>
    if x1 = x2 then
      if (y1 + y2) % secp_p = 0 then none
      else
        (fun lam =>
          (fun x3 => some (x3, (lam * ((x1 + secp_p - x3) % secp_p) + (secp_p - y1)) % secp_p))
            ((lam * lam + (secp_p - x1) + (secp_p - x2)) % secp_p))
          (3 * x1 * x1 % secp_p * modInv (2 * y1 % secp_p) % secp_p)
    else
      (fun lam =>
        (fun x3 => some (x3, (lam * ((x1 + secp_p - x3) % secp_p) + (secp_p - y1)) % secp_p))
          ((lam * lam + (secp_p - x1) + (secp_p - x2)) % secp_p))
        ((y2 + secp_p - y1) % secp_p * modInv ((x2 + secp_p - x1) % secp_p) % secp_p)

/-- Force an optional point, then return `k`. -/
def seqPt (p : Option (Nat × Nat)) (k : α) : α :=
  match p with
  | none => k
  | some xy => seqNat (Nat.add xy.1 xy.2) k

/-- Double-and-add scalar multiplication, least-significant bit first
(fuel bounds the scalar's bit length). -/
def ecMulLoop (fuel : Nat) : Nat → Option (Nat × Nat) → Option (Nat × Nat) → Option (Nat × Nat) :=
  @Nat.rec (fun _ => Nat → Option (Nat × Nat) → Option (Nat × Nat) → Option (Nat × Nat))
    (fun _ _ acc => acc)
    (fun _ ih k p acc =>
      match k with
      | 0 => acc
      | _ + 1 =>
        (fun acc2 =>
          seqPt acc2 ((fun p2 => seqPt p2 (ih (Nat.div k 2) p2 acc2)) (ecAdd p p)))
          (@Nat.rec (fun _ => Option (Nat × Nat)) acc (fun _ _ => ecAdd acc p) (Nat.mod k 2)))
    fuel

/-- `k * G` on secp256k1 (`none` for the point at infinity).  This models
the `ecdsa` package's `int * Point` on scalars below `2 ^ 256`: the
library computes the same curve point (it reduces the scalar by the group
order times two before its ladder, which changes nothing below
`2 ^ 257`), and its point-at-infinity result has no coordinates, which
the caller's `.x()` / `.y()` accesses turn into an exception. -/
def ecMulG (k : Nat) : Option (Nat × Nat) :=
  ecMulLoop 257 k (some (secp_gx, secp_gy)) none

set_option maxRecDepth 4000000

/-- Keccak-256 of the empty string (the well-known Ethereum constant
`c5d2...a470`). -/
theorem keccak256_vector_empty :
    beToNat (keccak256 []) =
      89477152217924674838424037953991966239322087453347756267410168184682657981552 := by
  decide!

/-- Keccak-256 of `"abc"`. -/
theorem keccak256_vector_abc :
    beToNat (keccak256 (utf8 "abc")) =
      35286403120855365962805127237049809881669876751651884979611909062921250761797 := by
  decide!

/-- SHA-256 of `"abc"` (FIPS 180-4). -/
theorem sha256_vector_abc :
    beToNat (sha256 (utf8 "abc")) =
      84342368487090800366523834928142263660104883695016514377462985829716817089965 := by
  decide!

/-- The double of the secp256k1 base point (SEC 2 / standard vector). -/
theorem ecMulG_vector_two :
    ecMulG 2 = some
      (89565891926547004231252920425935692360644145829622209833684329913297188986597,
       12158399299693830322967808612713398636155367887041628176798871954788371653930) := by
  decide!

/-- One, zero and the generator: `1 * G = G`, `0 * G` is the point at
infinity. -/
theorem ecMulG_vector_one_zero : ecMulG 1 = some (secp_gx, secp_gy) ∧ ecMulG 0 = none := by
  constructor
  · decide!
  · decide!

/-! ## The embedded source, `batch_generate_ethereum_account_from_mnemonic.py`

Each definition mirrors one Python function.  `fingerprint` (a RIPEMD-160
helper only used to build serialization inputs by callers outside this
file's claims) is not needed by any claim and is not embedded. -/

/-- Module constant `BIP39_PBKDF2_ROUNDS = 2048`. -/
def BIP39_PBKDF2_ROUNDS : Nat := 2048

/-- Module constant `BIP39_SALT_MODIFIER = "mnemonic"`. -/
def BIP39_SALT_MODIFIER : String := "mnemonic"

/-- Module constant `BIP32_PRIVDEV = 0x80000000`. -/
def BIP32_PRIVDEV : Nat := 2147483648

/-- Module constant `BIP32_SEED_MODIFIER = b'Bitcoin seed'`. -/
def BIP32_SEED_MODIFIER : List Nat := utf8 "Bitcoin seed"

/-- Module constant `ETH_DERIVATION_PATH`. -/
def ETH_DERIVATION_PATH : String := "m/44'/60'/0'/0/"

/-- `mnemonic_to_bip39seed(mnemonic, passphrase)`: PBKDF2-HMAC-SHA512,
password the UTF-8 mnemonic, salt UTF-8 `"mnemonic" + passphrase`, 2048
rounds, default (64-byte) output. -/
def mnemonic_to_bip39seed (mnemonic passphrase : String) : List Nat :=
  pbkdf2_hmac_sha512 (utf8 mnemonic) (utf8 (BIP39_SALT_MODIFIER ++ passphrase))
    BIP39_PBKDF2_ROUNDS

/-- `bip39seed_to_bip32masternode(seed)`: HMAC-SHA512 keyed with
`b'Bitcoin seed'` over the seed; first 32 bytes the key, last 32 the
chain code. -/
def bip39seed_to_bip32masternode (seed : List Nat) : List Nat × List Nat :=
  (fun (h : List Nat) => (h.take 32, h.drop 32)) (hmac_sha512 BIP32_SEED_MODIFIER seed)

/-- `derive_public_key(private_key)`: `Q = int(private_key) * G`, result
`(2 + (Q.y & 1)) ‖ Q.x` (33 bytes).  `none` models the exception raised
when `Q` is the point at infinity (it has no `x()`/`y()` coordinates). -/
def derive_public_key (private_key : List Nat) : Option (List Nat) :=
  match ecMulG (beToNat private_key) with
  | none => none
  | some xy => some ((2 + Nat.mod xy.2 2) :: natToBytes 32 xy.1)

/-- The `while True:` loop of `derive_bip32childkey`, with fuel:
`h = HMAC-SHA512(k, d)`, candidate `(int(h[:32]) + int(parent_key)) mod n`;
exit when `int(h[:32]) < n` and the candidate is nonzero, else retry with
`d = 0x01 ‖ h[32:] ‖ be32(i)`. -/
def derive_loop (k parent_key : List Nat) (i : Nat) : Nat → List Nat → Option (List Nat × List Nat)
  | 0, _ => none
  | fuel + 1, d =>
    (fun h =>
      (fun a b =>
        (fun key =>
          if a < secp_n ∧ key ≠ 0 then some (natToBytes 32 key, h.drop 32)
          else derive_loop k parent_key i fuel (1 :: (h.drop 32 ++ be32 i)))
          ((a + b) % secp_n))
        (beToNat (h.take 32)) (beToNat parent_key))
      (hmac_sha512 k d)

/-- `derive_bip32childkey(parent_key, parent_chain_code, i)`: asserts both
inputs are 32 bytes; data block `0x00 ‖ parent_key` when bit 31 of `i` is
set, else the compressed parent public key; appends `be32(i)` (which
raises unless `i < 2^32`); then the retry loop keyed with the parent
chain code. -/
def derive_bip32childkey (fuel : Nat) (parent_key parent_chain_code : List Nat) (i : Nat) :
    Option (List Nat × List Nat) :=
  if parent_key.length = 32 ∧ parent_chain_code.length = 32 then
    match (if Nat.land i BIP32_PRIVDEV ≠ 0 then some (0 :: parent_key)
           else derive_public_key parent_key) with
    | none => none
    | some key =>
      if i < 4294967296 then derive_loop parent_chain_code parent_key i fuel (key ++ be32 i)
      else none
  else none

/-- The pre-checksum payload of `b58xprv`: version `0x0488ADE4`, the
UTF-8 encoding of `chr(depth)` (as the source's
`bytes(chr(depth), 'utf-8')` computes — two bytes once `depth ≥ 128`),
fingerprint, 4-byte child number, chain code, `0x00 ‖ private_key`.
`none` models `chr`/`to_bytes` raising (code point out of range or a
surrogate, child number at least `2^32`). -/
def b58xprv_raw (parent_fingerprint private_key chain : List Nat) (depth childnr : Nat) :
    Option (List Nat) :=
  if depth < 1114112 ∧ ¬(55296 ≤ depth ∧ depth ≤ 57343) then
    if childnr < 4294967296 then
      some ([4, 136, 173, 228] ++ utf8Char depth ++ parent_fingerprint
            ++ natToBytes 4 childnr ++ chain ++ (0 :: private_key))
    else none
  else none

/-- `b58xprv(parent_fingerprint, private_key, chain, depth, childnr)`:
`b58encode_check` of the raw payload. -/
def b58xprv (parent_fingerprint private_key chain : List Nat) (depth childnr : Nat) :
    Option String :=
  (b58xprv_raw parent_fingerprint private_key chain depth childnr).map b58encode_check

/-- The pre-checksum payload of `b58xpub`: version `0x0488B21E`, then as
`b58xprv_raw` but with the public key in place of `0x00 ‖ private_key`. -/
def b58xpub_raw (parent_fingerprint public_key chain : List Nat) (depth childnr : Nat) :
    Option (List Nat) :=
  if depth < 1114112 ∧ ¬(55296 ≤ depth ∧ depth ≤ 57343) then
    if childnr < 4294967296 then
      some ([4, 136, 178, 30] ++ utf8Char depth ++ parent_fingerprint
            ++ natToBytes 4 childnr ++ chain ++ public_key)
    else none
  else none

/-- `b58xpub(parent_fingerprint, public_key, chain, depth, childnr)`. -/
def b58xpub (parent_fingerprint public_key chain : List Nat) (depth childnr : Nat) :
    Option String :=
  (b58xpub_raw parent_fingerprint public_key chain depth childnr).map b58encode_check

/-- Python's `str.lstrip('m/')`: remove every leading `'m'` or `'/'`. -/
def lstripMS (cs : List Char) : List Char := cs.dropWhile (fun c => c == 'm' || c == '/')

/-- Python's `str.split('/')` (keeps empty pieces; `""` gives `[""]`). -/
def splitSlash : List Char → List (List Char)
  | [] => [[]]
  | c :: rest =>
    (fun groups =>
      if c = '/' then [] :: groups
      else
        match groups with
        | [] => [[c]]
        | g :: gs => (c :: g) :: gs)
      (splitSlash rest)

/-- Python whitespace stripped by `int()` (ASCII fragment). -/
def isPySpace (c : Char) : Bool :=
  c == ' ' || c == '\t' || c == '\n' || c == '\r' || c == '\x0b' || c == '\x0c'

/-- Digit-and-underscore parsing of Python's `int()`: at least one digit,
underscores only between digits.  The flag records whether the previous
character was a digit. -/
def pyDigitsGo : Bool → Nat → List Char → Option Nat
  | prevDigit, acc, [] => if prevDigit then some acc else none
  | prevDigit, acc, c :: rest =>
    if c.isDigit then pyDigitsGo true (acc * 10 + (c.toNat - 48)) rest
    else if c = '_' then (if prevDigit then pyDigitsGo false acc rest else none)
    else none

/-- Python's `int(s)` in base 10 (ASCII fragment): optional surrounding
whitespace, one optional sign, then digits with underscores between
them.  `none` models the `ValueError`. -/
def pyInt (cs : List Char) : Option Int :=
  (fun stripped =>
    match stripped with
    | '+' :: rest => (pyDigitsGo false 0 rest).map (fun v => (v : Int))
    | '-' :: rest => (pyDigitsGo false 0 rest).map (fun v => -(v : Int))
    | rest => (pyDigitsGo false 0 rest).map (fun v => (v : Int)))
    (((cs.dropWhile isPySpace).reverse.dropWhile isPySpace).reverse)

/-- One `/`-delimited segment of a derivation path: if a hardened marker
appears anywhere in the segment, the last character is dropped and
`BIP32_PRIVDEV` is added to the parsed integer; otherwise the segment is
parsed as an integer directly. -/
def segParse (seg : List Char) : Option Int :=
  if seg.contains '\'' then (pyInt seg.dropLast).map (fun v => (BIP32_PRIVDEV : Int) + v)
  else pyInt seg

/-- The per-segment loop of `parse_derivation_path` (the first failing
segment raises). -/
def segsParse : List (List Char) → Option (List Int)
  | [] => some []
  | seg :: rest =>
    match segParse seg with
    | none => none
    | some v =>
      match segsParse rest with
      | none => none
      | some vs => some (v :: vs)

/-- `parse_derivation_path(str_derivation_path)`: requires the first two
characters to be `"m/"` (else `ValueError`), strips every leading `'m'`
or `'/'`, splits on `'/'` and parses each segment. -/
def parse_derivation_path (str_derivation_path : String) : Option (List Int) :=
  if str_derivation_path.toList.take 2 = ['m', '/'] then
    segsParse (splitSlash (lstripMS str_derivation_path.toList))
  else none

/-- The derivation loop of `mnemonic_to_private_key`: one
`derive_bip32childkey` per path element.  A negative element makes
`struct.pack('>L', i)` raise, modeled as `none`. -/
def derive_path_loop (fuel : Nat) : List Int → List Nat × List Nat → Option (List Nat × List Nat)
  | [], node => some node
  | i :: rest, node =>
    if i < 0 then none
    else
      match derive_bip32childkey fuel node.1 node.2 i.toNat with
      | none => none
      | some node2 => derive_path_loop fuel rest node2

/-- `mnemonic_to_private_key(mnemonic, str_derivation_path, passphrase)`:
parse the path, stretch the seed, derive the master node, iterate child
derivation, return the leaf private key as a lowercase hex string. -/
def mnemonic_to_private_key (fuel : Nat) (mnemonic str_derivation_path passphrase : String) :
    Option String :=
  match parse_derivation_path str_derivation_path with
  | none => none
  | some derivation_path =>
    match derive_path_loop fuel derivation_path
        (bip39seed_to_bip32masternode (mnemonic_to_bip39seed mnemonic passphrase)) with
    | none => none
    | some node => some (String.mk (hexChars node.1))

/-- The checksum nibble of EIP-55: hex digit `idx` of the address hash. -/
def eip55Nibble (h : List Nat) (idx : Nat) : Nat :=
  if idx % 2 = 0 then h.getD (idx / 2) 0 / 16 else h.getD (idx / 2) 0 % 16

/-- EIP-55 casing: uppercase hex digit `idx` exactly when nibble `idx` of
the hash of the lowercase hex address is at least 8. -/
def eip55Render (hexs : List Char) (h : List Nat) : List Char :=
  hexs.enum.map (fun p => if 7 < eip55Nibble h p.1 then p.2.toUpper else p.2)

/-- `eth_utils.to_checksum_address` on a 20-byte address: lowercase hex,
Keccak-256 of that hex string's ASCII bytes, EIP-55 casing, `"0x"`
prefix. -/
def to_checksum_address (addr : List Nat) : String :=
  (fun hexs => String.mk ('0' :: 'x' :: eip55Render hexs (keccak256 (hexs.map Char.toNat))))
    (hexChars addr)

/-- The address encoding inside `generate_ethereum_address`: Keccak-256
of the public key, last 20 bytes (`keccak_hash[-20:]`), checksummed. -/
def toAddress (public_key_bytes : List Nat) : String :=
  (fun keccak_hash => to_checksum_address (keccak_hash.drop (keccak_hash.length - 20)))
    (keccak256 public_key_bytes)

/-- `ecdsa.SigningKey.from_string(..).verifying_key.to_string()`: checks
the key is exactly 32 bytes and its scalar lies in `[1, n-1]` (else
`from_string` / `from_secret_exponent` raise), then returns the
uncompressed 64-byte public key `x ‖ y`. -/
def signing_key_to_verifying_key (pk : List Nat) : Option (List Nat) :=
  if pk.length = 32 then
    if 1 ≤ beToNat pk ∧ beToNat pk < secp_n then
      match ecMulG (beToNat pk) with
      | some xy => some (natToBytes 32 xy.1 ++ natToBytes 32 xy.2)
      | none => none
    else none
  else none

/-- `generate_ethereum_address(private_key)`: hex string to bytes, public
key via `ecdsa`, Keccak-256, last 20 bytes, checksummed with `0x`. -/
def generate_ethereum_address (private_key : String) : Option String :=
  match bytesFromHex private_key with
  | none => none
  | some private_key_bytes =>
    match signing_key_to_verifying_key private_key_bytes with
    | none => none
    | some public_key_bytes => some (toAddress public_key_bytes)

/-- The f-string `f"m/44'/60'/0'/0/{i}"`. -/
def accountPath (i : Nat) : String := "m/44'/60'/0'/0/" ++ toString i

/-- The line `f"ACCOUNT_{i}_PRIVATE_KEY={private_key}\n"` appended to the
`.env` file on each loop iteration. -/
def envLine (i : Nat) (pk : String) : String :=
  "ACCOUNT_" ++ toString i ++ "_PRIVATE_KEY=" ++ pk ++ "\n"

/-- The loop of `batch_generate_ethereum_account_from_mnemonic`, from
index `i` with `remaining` iterations left.  The first component is the
returned `account` list (`none` when an iteration raises, so the function
never returns); the second is the trace of lines appended to `.env`, in
write order, including the writes made before a raise. -/
def batch_go (fuel : Nat) (mnemonic : String) :
    Nat → Nat → Option (List (String × String)) × List String
  | _, 0 => (some [], [])
  | i, remaining + 1 =>
    match mnemonic_to_private_key fuel mnemonic (accountPath i) "" with
    | none => (none, [])
    | some private_key =>
      match generate_ethereum_address private_key with
      | none => (none, [])
      | some address =>
        (fun r => (r.1.map (fun rest => (address, private_key) :: rest),
                   envLine i private_key :: r.2))
          (batch_go fuel mnemonic (i + 1) remaining)

/-- `batch_generate_ethereum_account_from_mnemonic(mnemonic, number)`:
for `i in range(number)`, derive the account at path
`m/44'/60'/0'/0/i`, append `(address, private_key)` to the result, and
append the private key line to the `.env` file.  The returned pair is
(value or raise, `.env` write trace). -/
def batch_generate_ethereum_account_from_mnemonic (fuel : Nat) (mnemonic : String)
    (number : Nat) : Option (List (String × String)) × List String :=
  batch_go fuel mnemonic 0 number

/-- Intermediate values of the concrete run `batch(mnemonic := "a", 1)`:
the two precomputed HMAC key-block states for password `"a"`. -/
def pbHiA : Nat := 5814019113693214450643969897432696893395226445975669764932298580009080901745339873037728787512175125284327538481305841125732684537482220512930673327575630

/-- The opad state for password `"a"`. -/
def pbHoA : Nat := 4932009688777841490305342931922775426880109471489205752903712081273792666388598179525880974615763641915699128105405468110346062581360508558236670461633289

/-- `mnemonic_to_private_key` with the stretched seed passed explicitly:
a definitionally equal factorization (`mnemonic_to_private_key_eq`) that
lets the proved seed value be substituted before kernel evaluation. -/
def mtpkFromSeed (fuel : Nat) (seed : List Nat) (str_derivation_path : String) :
    Option String :=
  match parse_derivation_path str_derivation_path with
  | none => none
  | some derivation_path =>
    match derive_path_loop fuel derivation_path (bip39seed_to_bip32masternode seed) with
    | none => none
    | some node => some (String.mk (hexChars node.1))

set_option maxRecDepth 4000000

/-- BIP32 test vector 1: the master node of seed `000102...0f`. -/
theorem bip32_vector_master :
    (fun node => (beToNat node.1, beToNat node.2))
        (bip39seed_to_bip32masternode [0, 1, 2, 3, 4, 5, 6, 7, 8, 9, 10, 11, 12, 13, 14, 15]) =
      (105366245268346348601399826821003822098691517983742654654633135381666943167285,
       61171775673083422519245996667377262266507592518810500022273452776445653275912) := by
  decide!

/-- EIP-55 reference example: checksumming
`0x5aaeb6053f3e94c9b9a09f33669435e7ef1beaed`. -/
theorem to_checksum_address_vector :
    to_checksum_address [90, 174, 182, 5, 63, 62, 148, 201, 185, 160, 159, 51, 102, 148, 53,
        231, 239, 27, 234, 237] = "0x5aAeb6053F3E94C9b9A09f33669435E7Ef1BeAed" := by
  decide!

/-- End-to-end address vector: the address of the well-known test private
key `ac0974...ff80`. -/
theorem generate_ethereum_address_vector :
    generate_ethereum_address
        "ac0974bec39a17e36ba4a6b4d238ff944bacb478cbed5efcae784d7bf4f2ff80" =
      some "0xf39Fd6e51aad88F6F4ce6aB8827279cffFb92266" := by
  decide!

/-! ## General lemmas about the byte utilities -/

theorem natToBytes_length (k n : Nat) : (natToBytes k n).length = k := by
  induction k generalizing n with
  | zero => rfl
  | succ k ih => simp [natToBytes, ih]

theorem natToBytesLE_length (k n : Nat) : (natToBytesLE k n).length = k := by
  induction k generalizing n with
  | zero => rfl
  | succ k ih => simp [natToBytesLE, ih]

theorem beToNat_append_single (bs : List Nat) (b : Nat) :
    beToNat (bs ++ [b]) = 256 * beToNat bs + b := by
  simp [beToNat, List.foldl_append, Nat.mul_comm]

theorem beToNat_natToBytes (k n : Nat) (h : n < 256 ^ k) :
    beToNat (natToBytes k n) = n := by
  induction k generalizing n with
  | zero =>
    interval_cases n
    rfl
  | succ k ih =>
    have hdiv : n / 256 < 256 ^ k := by
      rw [Nat.div_lt_iff_lt_mul (by norm_num)]
      calc n < 256 ^ (k + 1) := h
        _ = 256 ^ k * 256 := by ring
    rw [natToBytes, beToNat_append_single, ih _ hdiv]
    omega

theorem keccak256_length (msg : List Nat) : (keccak256 msg).length = 32 := by
  simp [keccak256, natToBytesLE_length]

/-! ## Claim C7: the seed stretcher -/

/-- C7.  For every mnemonic and passphrase, `mnemonic_to_bip39seed` is
PBKDF2-HMAC-SHA512 with 2048 rounds, password the UTF-8 mnemonic and
salt the UTF-8 of `"mnemonic" + passphrase`, and its output is exactly
64 bytes (in particular the empty passphrase is a valid input with no
failure: the function is total). -/
theorem mnemonic_to_bip39seed_spec (m p : String) :
    mnemonic_to_bip39seed m p
        = pbkdf2_hmac_sha512 (utf8 m) (utf8 ("mnemonic" ++ p)) 2048
      ∧ (mnemonic_to_bip39seed m p).length = 64 := by
  constructor
  · rfl
  · simp [mnemonic_to_bip39seed, pbkdf2_hmac_sha512, natToBytes_length]

/-! ## Claim C6: the extended-key serializer's payload -/

/-- C6.  At depth 128 the pre-checksum payload of `b58xprv` is 79 bytes,
not the 78 required by the format: `bytes(chr(128), 'utf-8')` encodes
code point 128 as the two bytes `0xC2 0x80`.  At depth 127 (and below)
the payload is the specified 78 bytes. -/
theorem b58xprv_payload_length_bug :
    (b58xprv_raw (List.replicate 4 0) (List.replicate 32 1) (List.replicate 32 2)
        128 0).map List.length = some 79
    ∧ (b58xprv_raw (List.replicate 4 0) (List.replicate 32 1) (List.replicate 32 2)
        127 0).map List.length = some 78 := by
  constructor
  · decide
  · decide

/-! ## Claims C4 and C10: the path parser -/

theorem segsParse_eq_none (l : List (List Char)) :
    segsParse l = none ↔ ∃ seg ∈ l, segParse seg = none := by
  induction l with
  | nil => simp [segsParse]
  | cons seg rest ih =>
    cases h : segParse seg with
    | none =>
      exact iff_of_true (by simp [segsParse, h]) ⟨seg, by simp, h⟩
    | some v =>
      cases h2 : segsParse rest with
      | none =>
        rcases ih.mp h2 with ⟨s2, hs2, hn⟩
        exact iff_of_true (by simp [segsParse, h, h2]) ⟨s2, by simp [hs2], hn⟩
      | some vs =>
        refine iff_of_false (by simp [segsParse, h, h2]) ?_
        rintro ⟨s2, hs2, hn⟩
        rcases List.mem_cons.mp hs2 with rfl | hmem
        · exact absurd h (by simp [hn])
        · exact absurd (ih.mpr ⟨s2, hmem, hn⟩) (by simp [h2])

theorem take_two_mslash (L : List Char) : List.take 2 ('m' :: '/' :: L) = ['m', '/'] := rfl

theorem dropWhile_mslash (L : List Char) :
    List.dropWhile (fun c => c == 'm' || c == '/') ('m' :: '/' :: L)
      = List.dropWhile (fun c => c == 'm' || c == '/') L := by
  simp [List.dropWhile]

/-- C4 (amended).  `parse_derivation_path` fails exactly when the string
does not start with `"m/"` or some `/`-delimited segment (taken after
stripping every leading `'m'` and `'/'`) fails to parse — where a
segment parses by Python `int()` rules (an optional sign is accepted,
so a negative segment such as `"-5"` parses), with a hardened marker
anywhere in the segment dropping its last character and adding `2^31`.
The two specimen paths are rejected as the claim states. -/
theorem parse_derivation_path_failure_characterization :
    (∀ s : String, parse_derivation_path s = none ↔
        s.toList.take 2 ≠ ['m', '/']
          ∨ ∃ seg ∈ splitSlash (lstripMS s.toList), segParse seg = none)
    ∧ parse_derivation_path "44'/60'/0'/0" = none
    ∧ parse_derivation_path "m/abc" = none := by
  refine ⟨fun s => ?_, by decide, by decide⟩
  unfold parse_derivation_path
  by_cases h : List.take 2 s.toList = ['m', '/']
  · rw [if_pos h]
    constructor
    · intro hnone
      exact Or.inr ((segsParse_eq_none _).mp hnone)
    · rintro (hbad | ⟨s2, hs2, hn⟩)
      · exact absurd h hbad
      · exact (segsParse_eq_none _).mpr ⟨s2, hs2, hn⟩
  · rw [if_neg h]
    exact iff_of_true rfl (Or.inl h)

/-- C4 (counterexample to the claim as stated).  The segment `"-5"` is
not a non-negative integer with an optional hardened suffix, yet the
parser accepts the path and returns the negative index. -/
theorem parse_derivation_path_accepts_negative :
    parse_derivation_path "m/-5" = some [-5] := by decide

theorem dropWhile_append_all {p : Char → Bool} (l1 l2 : List Char)
    (h : ∀ c ∈ l1, p c = true) :
    (l1 ++ l2).dropWhile p = l2.dropWhile p := by
  induction l1 with
  | nil => rfl
  | cons c cs ih =>
    rw [List.cons_append, List.dropWhile_cons, if_pos (h c (by simp))]
    exact ih (fun c2 hc2 => h c2 (by simp [hc2]))

/-- C10 (amended).  After the two-character root check,
`parse_derivation_path` strips every leading `'m'` and `'/'`: a path
`"m/"` followed by any run of `'m'` and `'/'` characters and then the
segments parses exactly as `"m/"` followed by the segments, and the
three specimen paths agree and succeed. -/
theorem parse_derivation_path_strips_leading_marks :
    (∀ rs s : String, (∀ c ∈ rs.toList, c = 'm' ∨ c = '/') →
        parse_derivation_path ("m/" ++ rs ++ s) = parse_derivation_path ("m/" ++ s))
    ∧ parse_derivation_path "m//44'/0" = parse_derivation_path "m/m/44'/0"
    ∧ parse_derivation_path "m/m/44'/0" = parse_derivation_path "m/44'/0"
    ∧ parse_derivation_path "m/44'/0" = some [2147483692, 0] := by
  refine ⟨fun rs s h => ?_, by decide, by decide, by decide⟩
  unfold parse_derivation_path lstripMS
  have h1 : ("m/" ++ rs ++ s).toList = 'm' :: '/' :: (rs.toList ++ s.toList) := by
    simp [String.toList, String.data_append]
  have h2 : ("m/" ++ s).toList = 'm' :: '/' :: s.toList := by
    simp [String.toList, String.data_append]
  rw [h1, h2, if_pos (take_two_mslash _), if_pos (take_two_mslash _),
    dropWhile_mslash, dropWhile_mslash]
  have hstrip : ∀ c ∈ rs.toList, (fun c => c == 'm' || c == '/') c = true := by
    intro c hc
    rcases h c hc with rfl | rfl <;> simp
  rw [dropWhile_append_all _ _ hstrip]

/-- C10 (counterexample to the claim as stated).  `"mm44"` has the form
`'m'` followed by a run of `'m'`/`'/'` characters (`"m"`) and segments
(`"44"`), yet it is rejected by the root-marker check, while the same
segments after `"m/"` are accepted. -/
theorem parse_derivation_path_rejects_mm :
    parse_derivation_path "mm44" = none ∧ parse_derivation_path "m/44" = some [44] := by
  exact ⟨by decide, by decide⟩

/-- C10 witness: the amended equivalence applied at the run `"m"` and
segments `"44'/0"`. -/
theorem parse_derivation_path_strips_leading_marks_witness :
    (∀ c ∈ ("m" : String).toList, c = 'm' ∨ c = '/')
    ∧ parse_derivation_path ("m/" ++ "m" ++ "44'/0") = parse_derivation_path ("m/" ++ "44'/0") :=
  ⟨by decide, parse_derivation_path_strips_leading_marks.1 "m" "44'/0" (by decide)⟩

/-! ## Claim C5: public-key recovery on out-of-range scalars -/

/-- C5 (counterexample to the claim as stated).  The 32-byte key whose
big-endian value is `order + 1` lies outside `[1, order-1]`, yet
`derive_public_key` succeeds on it (no error is surfaced): the `ecdsa`
scalar multiplication reduces the scalar by the group order. -/
theorem derive_public_key_over_order_no_error :
    (derive_public_key (natToBytes 32 (secp_n + 1))).isSome = true := by
  decide!

/-- C5 (amended).  For every private-key byte string, `derive_public_key`
raises exactly when the scalar product is the point at infinity (the
result then has no `x()`/`y()` coordinates) — in particular on the zero
key — and whenever the product is a finite point `(x, y)` it returns the
33-byte compressed encoding `(2 + (y & 1)) ‖ x` (`k = 1` gives the
compressed generator).  There is no range check: a scalar outside
`[1, order-1]` whose product is finite is accepted, and `order + 1`
yields exactly the result of `1`. -/
theorem derive_public_key_range_behavior :
    (∀ pk : List Nat, derive_public_key pk = none ↔ ecMulG (beToNat pk) = none)
    ∧ (∀ (pk : List Nat) (x y : Nat), ecMulG (beToNat pk) = some (x, y) →
        derive_public_key pk = some ((2 + Nat.mod y 2) :: natToBytes 32 x)
          ∧ ((2 + Nat.mod y 2) :: natToBytes 32 x).length = 33)
    ∧ derive_public_key (natToBytes 32 0) = none
    ∧ derive_public_key (natToBytes 32 (secp_n + 1)) = derive_public_key (natToBytes 32 1)
    ∧ derive_public_key (natToBytes 32 1) = some (2 :: natToBytes 32 secp_gx) := by
  refine ⟨fun pk => ?_, fun pk x y h => ?_, by decide!, by decide!, by decide!⟩
  · unfold derive_public_key
    cases h : ecMulG (beToNat pk) with
    | none => simp
    | some xy => simp
  · unfold derive_public_key
    rw [h]
    exact ⟨rfl, by simp [natToBytes_length]⟩

/-- C5 amended-theorem witness: the finite-point clause applied at the
32-byte key of value 2, whose scalar product is the doubled generator. -/
theorem derive_public_key_range_behavior_witness :
    ecMulG (beToNat (natToBytes 32 2)) = some
      (89565891926547004231252920425935692360644145829622209833684329913297188986597,
       12158399299693830322967808612713398636155367887041628176798871954788371653930)
    ∧ (derive_public_key (natToBytes 32 2) = some
        ((2 + Nat.mod 12158399299693830322967808612713398636155367887041628176798871954788371653930 2)
          :: natToBytes 32
            89565891926547004231252920425935692360644145829622209833684329913297188986597)
      ∧ ((2 + Nat.mod 12158399299693830322967808612713398636155367887041628176798871954788371653930 2)
          :: natToBytes 32
            89565891926547004231252920425935692360644145829622209833684329913297188986597).length
        = 33) :=
  ⟨by decide!, derive_public_key_range_behavior.2.1 _ _ _ (by decide!)⟩

/-! ## Claim C8: the address encoder -/

/-- The address encoder as the claim words it: the last 20 bytes of the
32-byte Keccak-256 digest of the 64-byte public key, rendered as
lowercase hex, cased by EIP-55 from the Keccak-256 hash of that hex
string, and prefixed with `0x`. -/
def addressEncoderSpec (pub : List Nat) : String :=
  (fun (hexs : List Char) =>
    String.mk ('0' :: 'x' :: eip55Render hexs (keccak256 (hexs.map Char.toNat))))
    (hexChars ((keccak256 pub).drop 12))

/-- C8.  On every 64-byte uncompressed public key, the source's address
encoding (Keccak-256, `[-20:]`, `to_checksum_address`) agrees with the
claim's description. -/
theorem toAddress_matches_claim (pub : List Nat) (h : pub.length = 64) :
    toAddress pub = addressEncoderSpec pub := by
  simp only [toAddress, addressEncoderSpec, to_checksum_address, keccak256_length]

/-- C8 witness: the encoder agreement at a concrete 64-byte key. -/
theorem toAddress_matches_claim_witness :
    (List.replicate 64 0).length = 64
    ∧ toAddress (List.replicate 64 0) = addressEncoderSpec (List.replicate 64 0) :=
  ⟨by decide, toAddress_matches_claim _ (by decide)⟩

/-! ## Claims C9 and C1: the batch driver -/

theorem batch_go_ok (fuel : Nat) (m : String) (remaining : Nat) :
    ∀ i l, (batch_go fuel m i remaining).1 = some l →
      l.length = remaining ∧ ∀ j, j < remaining →
        ∃ pk addr, mnemonic_to_private_key fuel m (accountPath (i + j)) "" = some pk
          ∧ generate_ethereum_address pk = some addr ∧ l[j]? = some (addr, pk) := by
  induction remaining with
  | zero =>
    intro i l h
    simp [batch_go] at h
    exact ⟨by simp [← h], fun j hj => absurd hj (by omega)⟩
  | succ r ih =>
    intro i l h
    cases hpk : mnemonic_to_private_key fuel m (accountPath i) "" with
    | none => simp [batch_go, hpk] at h
    | some pk =>
      cases haddr : generate_ethereum_address pk with
      | none => simp [batch_go, hpk, haddr] at h
      | some addr =>
        simp only [batch_go, hpk, haddr] at h
        cases hrec : (batch_go fuel m (i + 1) r).1 with
        | none => rw [hrec] at h; exact absurd h (by simp)
        | some rest =>
          rw [hrec] at h
          simp at h
          rcases ih (i + 1) rest hrec with ⟨hlen, hidx⟩
          refine ⟨by simp [← h, hlen], ?_⟩
          intro j hj
          cases j with
          | zero =>
            exact ⟨pk, addr, by simpa using hpk, haddr, by simp [← h]⟩
          | succ j2 =>
            rcases hidx j2 (by omega) with ⟨pk2, addr2, h1, h2, h3⟩
            refine ⟨pk2, addr2, ?_, h2, ?_⟩
            · have he : i + 1 + j2 = i + (j2 + 1) := by omega
              rwa [he] at h1
            · simp [← h, h3]

/-- C9.  The pipeline is deterministic (two calls agree), and a
successful batch returns one account per index, in request order: the
list has length `number` and its `j`-th entry is exactly the
(address, private key) pair derived for path index `j`. -/
theorem batch_deterministic_and_ordered :
    (∀ fuel m n, batch_generate_ethereum_account_from_mnemonic fuel m n
        = batch_generate_ethereum_account_from_mnemonic fuel m n)
    ∧ (∀ fuel m p pp, mnemonic_to_private_key fuel m p pp = mnemonic_to_private_key fuel m p pp)
    ∧ (∀ fuel m n l, (batch_generate_ethereum_account_from_mnemonic fuel m n).1 = some l →
        l.length = n ∧ ∀ j, j < n →
          ∃ pk addr, mnemonic_to_private_key fuel m (accountPath j) "" = some pk
            ∧ generate_ethereum_address pk = some addr ∧ l[j]? = some (addr, pk)) := by
  refine ⟨fun _ _ _ => rfl, fun _ _ _ _ => rfl, fun fuel m n l h => ?_⟩
  rcases batch_go_ok fuel m n 0 l h with ⟨hlen, hidx⟩
  exact ⟨hlen, fun j hj => by simpa using hidx j hj⟩

/-- C9 witness: the empty batch. -/
theorem batch_deterministic_and_ordered_witness :
    (batch_generate_ethereum_account_from_mnemonic 1 "a" 0).1 = some []
    ∧ (([] : List (String × String)).length = 0 ∧ ∀ j, j < 0 →
        ∃ pk addr, mnemonic_to_private_key 1 "a" (accountPath j) "" = some pk
          ∧ generate_ethereum_address pk = some addr
          ∧ ([] : List (String × String))[j]? = some (addr, pk)) :=
  ⟨rfl, batch_deterministic_and_ordered.2.2 1 "a" 0 [] rfl⟩

theorem batch_go_trace (fuel : Nat) (m : String) (remaining : Nat) :
    ∀ i l, (batch_go fuel m i remaining).1 = some l →
      (batch_go fuel m i remaining).2 = (l.enumFrom i).map (fun p => envLine p.1 p.2.2) := by
  induction remaining with
  | zero =>
    intro i l h
    simp [batch_go] at h
    simp [batch_go, ← h]
  | succ r ih =>
    intro i l h
    cases hpk : mnemonic_to_private_key fuel m (accountPath i) "" with
    | none => simp [batch_go, hpk] at h
    | some pk =>
      cases haddr : generate_ethereum_address pk with
      | none => simp [batch_go, hpk, haddr] at h
      | some addr =>
        simp only [batch_go, hpk, haddr] at h ⊢
        cases hrec : (batch_go fuel m (i + 1) r).1 with
        | none => rw [hrec] at h; exact absurd h (by simp)
        | some rest =>
          rw [hrec] at h
          simp at h
          rw [← h]
          simp [ih (i + 1) rest hrec, List.enumFrom]

/-- C1 (amended).  The account list is a pure function of the inputs (the
embedding is functional and `batch_deterministic_and_ordered` records
determinism), but the function does write to the `.env` file before
returning: on a successful batch the write trace is exactly one
`ACCOUNT_i_PRIVATE_KEY=...` line per returned account, in order. -/
theorem batch_env_write_per_account (fuel : Nat) (m : String) (n : Nat)
    (l : List (String × String))
    (h : (batch_generate_ethereum_account_from_mnemonic fuel m n).1 = some l) :
    (batch_generate_ethereum_account_from_mnemonic fuel m n).2
      = l.enum.map (fun p => envLine p.1 p.2.2) := by
  have ht := batch_go_trace fuel m n 0 l h
  simpa [List.enum] using ht

/-- C1 amended-theorem witness: the empty batch writes nothing. -/
theorem batch_env_write_per_account_witness :
    (batch_generate_ethereum_account_from_mnemonic 1 "a" 0).1 = some []
    ∧ (batch_generate_ethereum_account_from_mnemonic 1 "a" 0).2
        = ([] : List (String × String)).enum.map (fun p => envLine p.1 p.2.2) :=
  ⟨rfl, batch_env_write_per_account 1 "a" 0 [] rfl⟩

/-! ## Claims C3 and C2: the child-key deriver -/

theorem derive_loop_range (k pk : List Nat) (i : Nat) :
    ∀ fuel d key cc, derive_loop k pk i fuel d = some (key, cc) →
      0 < beToNat key ∧ beToNat key < secp_n := by
  intro fuel
  induction fuel with
  | zero => intro d key cc h; simp [derive_loop] at h
  | succ f ih =>
    intro d key cc h
    simp only [derive_loop] at h
    split at h
    case isTrue hc =>
      have h' := Option.some.inj h
      have hklt : (beToNat ((hmac_sha512 k d).take 32) + beToNat pk) % secp_n < secp_n :=
        Nat.mod_lt _ (by norm_num [secp_n])
      have hbound : (beToNat ((hmac_sha512 k d).take 32) + beToNat pk) % secp_n < 256 ^ 32 := by
        calc (beToNat ((hmac_sha512 k d).take 32) + beToNat pk) % secp_n < secp_n := hklt
          _ < 256 ^ 32 := by norm_num [secp_n]
      have hkey : key = natToBytes 32
          ((beToNat ((hmac_sha512 k d).take 32) + beToNat pk) % secp_n) :=
        (congrArg Prod.fst h').symm
      constructor
      · rw [hkey, beToNat_natToBytes _ _ hbound]
        exact Nat.pos_of_ne_zero hc.2
      · rw [hkey, beToNat_natToBytes _ _ hbound]
        exact hklt
    case isFalse hc => exact ih _ _ _ h

/-- C3.  Whenever `derive_bip32childkey` returns, the returned private
key read as a big-endian integer is strictly positive and strictly below
the secp256k1 group order. -/
theorem derive_bip32childkey_scalar_range (fuel : Nat) (pk ck : List Nat) (i : Nat)
    (key cc : List Nat) (h : derive_bip32childkey fuel pk ck i = some (key, cc)) :
    0 < beToNat key ∧ beToNat key < secp_n := by
  unfold derive_bip32childkey at h
  split at h
  · split at h
    · exact absurd h (by simp)
    · split at h
      · exact derive_loop_range ck pk i fuel _ key cc h
      · exact absurd h (by simp)
  · exact absurd h (by simp)

/-- The byte list fed to the keyed hash on retry `n` of the child
derivation, per the claim: the initial block `d0` at `n = 0`, and
`0x01 ‖ IR(n-1) ‖ be32(i)` afterwards. -/
def childAttemptD (ck : List Nat) (i : Nat) (d0 : List Nat) : Nat → List Nat
  | 0 => d0
  | n + 1 => 1 :: ((hmac_sha512 ck (childAttemptD ck i d0 n)).drop 32 ++ be32 i)

/-- `IL` of retry `n`: the first 32 bytes of the keyed hash, as an
integer. -/
def childIL (ck : List Nat) (i : Nat) (d0 : List Nat) (n : Nat) : Nat :=
  beToNat ((hmac_sha512 ck (childAttemptD ck i d0 n)).take 32)

/-- `IR` of retry `n`: the last 32 bytes of the keyed hash. -/
def childIR (ck : List Nat) (i : Nat) (d0 : List Nat) (n : Nat) : List Nat :=
  (hmac_sha512 ck (childAttemptD ck i d0 n)).drop 32

/-- The candidate private key of retry `n`:
`(IL + parentKey) mod curveOrder`. -/
def childCandidate (pk ck : List Nat) (i : Nat) (d0 : List Nat) (n : Nat) : Nat :=
  (childIL ck i d0 n + beToNat pk) % secp_n

/-- Validity of retry `n`: `IL < curveOrder` and a nonzero candidate. -/
def childValid (pk ck : List Nat) (i : Nat) (d0 : List Nat) (n : Nat) : Prop :=
  childIL ck i d0 n < secp_n ∧ childCandidate pk ck i d0 n ≠ 0

instance childValidDec (pk ck : List Nat) (i : Nat) (d0 : List Nat) (n : Nat) :
    Decidable (childValid pk ck i d0 n) := by
  unfold childValid
  infer_instance

theorem derive_loop_spec (pk ck : List Nat) (i : Nat) (d0 : List Nat) :
    ∀ fuel j key cc, (∀ m2, m2 < j → ¬ childValid pk ck i d0 m2) →
      derive_loop ck pk i fuel (childAttemptD ck i d0 j) = some (key, cc) →
      ∃ n, childValid pk ck i d0 n ∧ (∀ m2, m2 < n → ¬ childValid pk ck i d0 m2)
        ∧ key = natToBytes 32 (childCandidate pk ck i d0 n) ∧ cc = childIR ck i d0 n := by
  intro fuel
  induction fuel with
  | zero => intro j key cc _ h; simp [derive_loop] at h
  | succ f ih =>
    intro j key cc hinv h
    simp only [derive_loop] at h
    by_cases hv : childValid pk ck i d0 j
    · have hv' := hv
      unfold childValid childCandidate childIL at hv'
      rw [if_pos hv'] at h
      have h' := Option.some.inj h
      injection h' with h1 h2
      refine ⟨j, hv, hinv, ?_, ?_⟩
      · unfold childCandidate childIL
        exact h1.symm
      · unfold childIR
        exact h2.symm
    · have hv' : ¬ (beToNat ((hmac_sha512 ck (childAttemptD ck i d0 j)).take 32) < secp_n
          ∧ (beToNat ((hmac_sha512 ck (childAttemptD ck i d0 j)).take 32) + beToNat pk)
              % secp_n ≠ 0) := hv
      rw [if_neg hv'] at h
      refine ih (j + 1) key cc ?_ h
      intro m2 hm2
      rcases Nat.lt_succ_iff_lt_or_eq.mp hm2 with hlt | rfl
      · exact hinv m2 hlt
      · exact hv

theorem derive_public_key_length (pk kb : List Nat) (h : derive_public_key pk = some kb) :
    kb.length = 33 := by
  unfold derive_public_key at h
  split at h
  · exact absurd h (by simp)
  · have h' := Option.some.inj h
    rw [← h']
    simp [natToBytes_length]

/-- C2.  Whenever `derive_bip32childkey` returns a child, the result is
exactly the first valid retry of the claim's description: the initial
keyed-hash input is `0x00 ‖ parentKey ‖ be32(i)` when bit 31 of `i` is
set and the 33-byte compressed parent public key followed by `be32(i)`
otherwise; the hash is keyed with the parent chain code; retry `n + 1`
hashes `0x01 ‖ IR(n) ‖ be32(i)`; a retry is valid when `IL < order` and
`(IL + parentKey) mod order ≠ 0`; and the returned pair is the first
valid retry's `((IL + parentKey) mod order` as 32 big-endian bytes,
`IR)`. -/
theorem derive_bip32childkey_matches_spec (fuel : Nat) (pk ck : List Nat) (i : Nat)
    (key cc : List Nat) (h : derive_bip32childkey fuel pk ck i = some (key, cc)) :
    ∃ kb, ((Nat.land i BIP32_PRIVDEV ≠ 0 ∧ kb = 0 :: pk)
        ∨ (Nat.land i BIP32_PRIVDEV = 0 ∧ derive_public_key pk = some kb ∧ kb.length = 33))
      ∧ ∃ n, childValid pk ck i (kb ++ be32 i) n
          ∧ (∀ m2, m2 < n → ¬ childValid pk ck i (kb ++ be32 i) m2)
          ∧ key = natToBytes 32 (childCandidate pk ck i (kb ++ be32 i) n)
          ∧ cc = childIR ck i (kb ++ be32 i) n := by
  unfold derive_bip32childkey at h
  split at h
  case isFalse => exact absurd h (by simp)
  case isTrue hlen =>
    rename_i _
    split at h
    case h_1 => exact absurd h (by simp)
    case h_2 kb heq =>
      split at h
      case isFalse => exact absurd h (by simp)
      case isTrue hi =>
        refine ⟨kb, ?_, ?_⟩
        · by_cases hb : Nat.land i BIP32_PRIVDEV ≠ 0
          · rw [if_pos hb] at heq
            exact Or.inl ⟨hb, (Option.some.inj heq).symm⟩
          · rw [if_neg hb] at heq
            exact Or.inr ⟨by omega, heq, derive_public_key_length pk kb heq⟩
        · exact derive_loop_spec pk ck i (kb ++ be32 i) fuel 0 key cc
            (fun m2 hm2 => absurd hm2 (Nat.not_lt_zero m2)) h

/-- Concrete child key for the C2/C3 witnesses: the child of parent key
`0x01^32`, chain code `0x02^32`, hardened index `2^31`. -/
def childWitnessKey : List Nat :=
  [92, 27, 116, 203, 174, 9, 96, 223, 55, 83, 191, 63, 129, 131, 12, 181,
   31, 69, 254, 211, 246, 236, 9, 248, 141, 194, 164, 193, 39, 167, 159, 22]

/-- The matching returned chain code. -/
def childWitnessChain : List Nat :=
  [36, 225, 76, 202, 223, 128, 84, 72, 133, 103, 185, 43, 163, 150, 174, 77,
   65, 82, 250, 21, 34, 231, 58, 149, 119, 209, 26, 60, 221, 74, 114, 255]

/-- C3 witness: a concrete hardened derivation returns, and its key is in
range. -/
theorem derive_bip32childkey_scalar_range_witness :
    derive_bip32childkey 3 (List.replicate 32 1) (List.replicate 32 2) 2147483648
        = some (childWitnessKey, childWitnessChain)
    ∧ (0 < beToNat childWitnessKey ∧ beToNat childWitnessKey < secp_n) :=
  ⟨by decide!,
   derive_bip32childkey_scalar_range 3 (List.replicate 32 1) (List.replicate 32 2)
     2147483648 childWitnessKey childWitnessChain (by decide!)⟩

/-- C2 witness: the retry characterization at the same concrete hardened
derivation. -/
theorem derive_bip32childkey_matches_spec_witness :
    derive_bip32childkey 3 (List.replicate 32 1) (List.replicate 32 2) 2147483648
        = some (childWitnessKey, childWitnessChain)
    ∧ (∃ kb, ((Nat.land 2147483648 BIP32_PRIVDEV ≠ 0 ∧ kb = 0 :: List.replicate 32 1)
          ∨ (Nat.land 2147483648 BIP32_PRIVDEV = 0
              ∧ derive_public_key (List.replicate 32 1) = some kb ∧ kb.length = 33))
        ∧ ∃ n, childValid (List.replicate 32 1) (List.replicate 32 2) 2147483648
                (kb ++ be32 2147483648) n
            ∧ (∀ m2, m2 < n → ¬ childValid (List.replicate 32 1) (List.replicate 32 2)
                2147483648 (kb ++ be32 2147483648) m2)
            ∧ childWitnessKey = natToBytes 32 (childCandidate (List.replicate 32 1)
                (List.replicate 32 2) 2147483648 (kb ++ be32 2147483648) n)
            ∧ childWitnessChain = childIR (List.replicate 32 2) 2147483648
                (kb ++ be32 2147483648) n) :=
  ⟨by decide!,
   derive_bip32childkey_matches_spec 3 (List.replicate 32 1) (List.replicate 32 2)
     2147483648 childWitnessKey childWitnessChain (by decide!)⟩

/-! ## Claim C1's concrete counterexample run

The run `batch_generate_ethereum_account_from_mnemonic("a", 1)` is
evaluated end to end.  The 2048-round PBKDF2 stretch is the only part
the kernel cannot evaluate in a single `decide!`, so it is split into
chunks of at most 256 rounds (`pbkdf2_chunk_a_1` .. `pbkdf2_chunk_a_8`)
chained with `pbkdf2Iter_add`. -/

theorem pbkdf2Iter_succ (hi ho n u t : Nat) :
    pbkdf2Iter hi ho (n + 1) u t =
      pbkdf2Iter hi ho n (hmacU hi ho u) (Nat.xor t (hmacU hi ho u)) := by
  show seqNat (hmacU hi ho u)
      (seqNat (Nat.xor t (hmacU hi ho u))
        (pbkdf2Iter hi ho n (hmacU hi ho u) (Nat.xor t (hmacU hi ho u)))) =
    pbkdf2Iter hi ho n (hmacU hi ho u) (Nat.xor t (hmacU hi ho u))
  rw [seqNat_eq, seqNat_eq]

theorem pbkdf2Iter_add {hi ho m u t u2 t2 : Nat} (n : Nat)
    (h : pbkdf2Iter hi ho m u t = (u2, t2)) :
    pbkdf2Iter hi ho (n + m) u t = pbkdf2Iter hi ho n u2 t2 := by
  induction m generalizing u t u2 t2 with
  | zero =>
    have h0 : pbkdf2Iter hi ho 0 u t = (u, t) := rfl
    rw [h0] at h
    injection h with h1 h2
    rw [Nat.add_zero, h1, h2]
  | succ m ih =>
    rw [pbkdf2Iter_succ] at h
    have e : n + (m + 1) = (n + m) + 1 := rfl
    rw [e, pbkdf2Iter_succ]
    exact ih h



theorem pbkdf2_chunk_a_1 :
    pbkdf2Iter pbHiA pbHoA 256 11353240293835947724617522395595405200054175489146302386153025424970326622947276133680113655797862686736446748634666457737127124334623874632206102788232126
      11353240293835947724617522395595405200054175489146302386153025424970326622947276133680113655797862686736446748634666457737127124334623874632206102788232126
      = (2370732402595348444872041133471497214350172908899189787957921327328306240537682209588099272285109954419101408904799763589725723411347705192803197236251664,
         11573261653208584617255905203317929612461184300587813600274216041984985534744989213220190143764626961765562682094619517351301183289904587764884732041106429) := by
  decide!

theorem pbkdf2_chunk_a_2 :
    pbkdf2Iter pbHiA pbHoA 256 2370732402595348444872041133471497214350172908899189787957921327328306240537682209588099272285109954419101408904799763589725723411347705192803197236251664
      11573261653208584617255905203317929612461184300587813600274216041984985534744989213220190143764626961765562682094619517351301183289904587764884732041106429
      = (2924215278078392817178215865443666134571329057668417065178452876115264922208822724079417311245969841661584500634915719691180737864195422205042265435689150,
         10206931506201007128521946493244694509754154661728607807073119518603677071231396654169904706239815477277966884577868162920730651585023301662208381843613204) := by
  decide!

theorem pbkdf2_chunk_a_3 :
    pbkdf2Iter pbHiA pbHoA 256 2924215278078392817178215865443666134571329057668417065178452876115264922208822724079417311245969841661584500634915719691180737864195422205042265435689150
      10206931506201007128521946493244694509754154661728607807073119518603677071231396654169904706239815477277966884577868162920730651585023301662208381843613204
      = (11149820194531855748798079226843355022509535552872884710469845717490938256130835290314406138635605822647163670476603369167747111081383609807512044028841556,
         11045127331819590576566577837150891249481792659360946764371299211041713240056299983633538417112144636419275193763273849759073400098883611589268613514316877) := by
  decide!

theorem pbkdf2_chunk_a_4 :
    pbkdf2Iter pbHiA pbHoA 256 11149820194531855748798079226843355022509535552872884710469845717490938256130835290314406138635605822647163670476603369167747111081383609807512044028841556
      11045127331819590576566577837150891249481792659360946764371299211041713240056299983633538417112144636419275193763273849759073400098883611589268613514316877
      = (1978681425584004020713005937574627622616005390152841723956828044722067813985843072976469410951316081962624946828474343079995502521584936239032141817167484,
         10702777685775723666195907267218230379522052367167458987723358106966133675067271529408651591828605313575815388531497531549783148928709532041367765646620158) := by
  decide!

theorem pbkdf2_chunk_a_5 :
    pbkdf2Iter pbHiA pbHoA 256 1978681425584004020713005937574627622616005390152841723956828044722067813985843072976469410951316081962624946828474343079995502521584936239032141817167484
      10702777685775723666195907267218230379522052367167458987723358106966133675067271529408651591828605313575815388531497531549783148928709532041367765646620158
      = (9296244301606709009324718402121553487308818608318075315779330605667456426238006378164513041659848422882613370548810636480466923939049228445358869954476588,
         4607089945845888749292404414010953369810272292204322878378859858993743349326099728906422005794141148938014309285875331164949820452996546946181575855979694) := by
  decide!

theorem pbkdf2_chunk_a_6 :
    pbkdf2Iter pbHiA pbHoA 256 9296244301606709009324718402121553487308818608318075315779330605667456426238006378164513041659848422882613370548810636480466923939049228445358869954476588
      4607089945845888749292404414010953369810272292204322878378859858993743349326099728906422005794141148938014309285875331164949820452996546946181575855979694
      = (4749583058387630510049917929873028275225248666807499604287050512242103309932018920073157251428506564868764126770847361007696394826742677067061683988975249,
         13124360252565979964318678467302330964345420224850784897805678144544464031770964859687675505190661155057150437627908582016959826602429441105621023064904363) := by
  decide!

theorem pbkdf2_chunk_a_7 :
    pbkdf2Iter pbHiA pbHoA 256 4749583058387630510049917929873028275225248666807499604287050512242103309932018920073157251428506564868764126770847361007696394826742677067061683988975249
      13124360252565979964318678467302330964345420224850784897805678144544464031770964859687675505190661155057150437627908582016959826602429441105621023064904363
      = (10902826990447196030414481365106856866472880852955259923466256057419471559203787247126403794734120749855203600316472882670762282540078069695835046207345173,
         3309990934850889139727543834343478559904385175351023752325888588101861430363678807044170807569585982795750026704239028687800176155959104405395259519165739) := by
  decide!

theorem pbkdf2_chunk_a_8 :
    pbkdf2Iter pbHiA pbHoA 255 10902826990447196030414481365106856866472880852955259923466256057419471559203787247126403794734120749855203600316472882670762282540078069695835046207345173
      3309990934850889139727543834343478559904385175351023752325888588101861430363678807044170807569585982795750026704239028687800176155959104405395259519165739
      = (3198802067358463005717211989792736121673904588857623466056411712846642215284753852059659891382339856269341292330552452454989216862797029574348537280082498,
         5709841641320597451081683142697155759736561988806468584783102369297160375961693144986289215777858263180311932839408411761034401903943679896379014939878092) := by
  decide!

/-- The full 2047-round PBKDF2 iteration for password `"a"`, assembled
from the 256-round chunks. -/
theorem pbkdf2_a_total :
    pbkdf2Iter pbHiA pbHoA 2047 11353240293835947724617522395595405200054175489146302386153025424970326622947276133680113655797862686736446748634666457737127124334623874632206102788232126
      11353240293835947724617522395595405200054175489146302386153025424970326622947276133680113655797862686736446748634666457737127124334623874632206102788232126
      = (3198802067358463005717211989792736121673904588857623466056411712846642215284753852059659891382339856269341292330552452454989216862797029574348537280082498,
         5709841641320597451081683142697155759736561988806468584783102369297160375961693144986289215777858263180311932839408411761034401903943679896379014939878092) := by
  rw [show (2047 : Nat) = 1791 + 256 from rfl, pbkdf2Iter_add 1791 pbkdf2_chunk_a_1,
      show (1791 : Nat) = 1535 + 256 from rfl, pbkdf2Iter_add 1535 pbkdf2_chunk_a_2,
      show (1535 : Nat) = 1279 + 256 from rfl, pbkdf2Iter_add 1279 pbkdf2_chunk_a_3,
      show (1279 : Nat) = 1023 + 256 from rfl, pbkdf2Iter_add 1023 pbkdf2_chunk_a_4,
      show (1023 : Nat) = 767 + 256 from rfl, pbkdf2Iter_add 767 pbkdf2_chunk_a_5,
      show (767 : Nat) = 511 + 256 from rfl, pbkdf2Iter_add 511 pbkdf2_chunk_a_6,
      show (511 : Nat) = 255 + 256 from rfl, pbkdf2Iter_add 255 pbkdf2_chunk_a_7]
  exact pbkdf2_chunk_a_8

/-- The precomputed inner key-block state for password `"a"` is `pbHiA`. -/
theorem pbHiA_eq : hmacInnerState (utf8 "a") = pbHiA := by
  decide!

/-- The precomputed outer key-block state for password `"a"` is `pbHoA`. -/
theorem pbHoA_eq : hmacOuterState (utf8 "a") = pbHoA := by
  decide!

/-- `U_1` of the stretch for mnemonic `"a"`, empty passphrase. -/
theorem pbkdf2_a_u1 :
    beToNat (hmac_sha512 (utf8 "a") (utf8 (BIP39_SALT_MODIFIER ++ "") ++ be32 1))
      = 11353240293835947724617522395595405200054175489146302386153025424970326622947276133680113655797862686736446748634666457737127124334623874632206102788232126 := by
  decide!

/-- The BIP39 seed of mnemonic `"a"` with the empty passphrase. -/
theorem bip39seed_a :
    mnemonic_to_bip39seed "a" "" =
      natToBytes 64 5709841641320597451081683142697155759736561988806468584783102369297160375961693144986289215777858263180311932839408411761034401903943679896379014939878092 := by
  show natToBytes 64
      ((pbkdf2Iter (hmacInnerState (utf8 "a")) (hmacOuterState (utf8 "a"))
        (BIP39_PBKDF2_ROUNDS - 1)
        (beToNat (hmac_sha512 (utf8 "a") (utf8 (BIP39_SALT_MODIFIER ++ "") ++ be32 1)))
        (beToNat (hmac_sha512 (utf8 "a") (utf8 (BIP39_SALT_MODIFIER ++ "") ++ be32 1)))).2)
    = natToBytes 64 5709841641320597451081683142697155759736561988806468584783102369297160375961693144986289215777858263180311932839408411761034401903943679896379014939878092
  rw [pbHiA_eq, pbHoA_eq, pbkdf2_a_u1, show BIP39_PBKDF2_ROUNDS - 1 = 2047 from rfl,
      pbkdf2_a_total]


theorem mnemonic_to_private_key_eq (fuel : Nat) (m p pass : String) :
    mnemonic_to_private_key fuel m p pass
      = mtpkFromSeed fuel (mnemonic_to_bip39seed m pass) p := rfl

/-- The private key of account 0 of mnemonic `"a"`. -/
theorem mtpk_a0 :
    mnemonic_to_private_key 10 "a" (accountPath 0) ""
      = some "02d7f36e2c823d0b75fe46121123969561e1be2f00bb109510f1c31bc6ee102b" := by
  rw [mnemonic_to_private_key_eq, bip39seed_a]
  decide!

/-- The unfolding equation of one batch iteration. -/
theorem batch_go_succ (fuel : Nat) (m : String) (i remaining : Nat) :
    batch_go fuel m i (remaining + 1) =
      match mnemonic_to_private_key fuel m (accountPath i) "" with
      | none => (none, [])
      | some private_key =>
        match generate_ethereum_address private_key with
        | none => (none, [])
        | some address =>
          (fun r => (r.1.map (fun rest => (address, private_key) :: rest),
                     envLine i private_key :: r.2))
            (batch_go fuel m (i + 1) remaining) := rfl

/-- C1 counterexample: the concrete run `batch("a", 1)` appends the
account-0 private-key line to the `.env` file before returning its
in-memory result, so the batch function does have a file effect. -/
theorem batch_env_write_counterexample :
    (batch_generate_ethereum_account_from_mnemonic 10 "a" 1).2
        = [envLine 0 "02d7f36e2c823d0b75fe46121123969561e1be2f00bb109510f1c31bc6ee102b"]
    ∧ (batch_generate_ethereum_account_from_mnemonic 10 "a" 1).2 ≠ [] := by
  have h : batch_generate_ethereum_account_from_mnemonic 10 "a" 1 =
      (some [("0xA545f42da3fB84F3746a89D66e6Bd7Cbc14A1E38",
              "02d7f36e2c823d0b75fe46121123969561e1be2f00bb109510f1c31bc6ee102b")],
       [envLine 0 "02d7f36e2c823d0b75fe46121123969561e1be2f00bb109510f1c31bc6ee102b"]) := by
    show batch_go 10 "a" 0 1 = _
    rw [show (1 : Nat) = 0 + 1 from rfl, batch_go_succ, mtpk_a0]
    decide!
  rw [h]
  exact ⟨rfl, fun hc => List.noConfusion hc⟩
